import Mathlib

/-!
# Replica synchronisation of the Alluxio engine

A shallow embedding of `pkg/ddc/alluxio/replicas.go` (`AlluxioEngine.SyncReplicas`).

The engine's collaborators (fetching the runtime, provisioning, readiness check, destruction,
the conditional status write, the clock) are functions on an arbitrary world state `σ`; every
call is threaded through that state, so a collaborator may answer differently each time it is
called. `SyncReplicas` additionally records every call it makes, every event and every log
line in a trace, which is what the theorems speak about.
-/

namespace Fluid

/-! ## Data model -/

/-- A Go `error` value. `isConflict` is what `apierrors.IsConflict` answers for it. -/
structure Error where
  isConflict : Bool
  msg : String
deriving DecidableEq, Repr

/-- The `corev1.ConditionStatus` values. -/
inductive ConditionStatus where
  | ConditionTrue
  | ConditionFalse
  | ConditionUnknown
deriving DecidableEq, Repr

/-- The `corev1.EventTypeNormal` and `corev1.EventTypeWarning` severities. -/
inductive EventType where
  | EventTypeNormal
  | EventTypeWarning
deriving DecidableEq, Repr

/-- The type `datav1alpha1.RuntimeConditionType`, a Go string type. -/
abbrev RuntimeConditionType := String

/-- Modelled from the spec: the type `datav1alpha1.RuntimeCondition` is declared in
`api/v1alpha1`; the spec gives a condition the fields type, reason, message, status and
lastUpdateTime. -/
structure RuntimeCondition where
  type : RuntimeConditionType
  reason : String
  message : String
  status : ConditionStatus
  lastUpdateTime : Nat
deriving DecidableEq, Repr

/-- The fields of `datav1alpha1.RuntimeStatus` that `SyncReplicas` reads or writes, together
with the companion current fuse count. -/
structure RuntimeStatus where
  DesiredWorkerNumberScheduled : Int
  CurrentWorkerNumberScheduled : Int
  DesiredFuseNumberScheduled : Int
  CurrentFuseNumberScheduled : Int
  Conditions : List RuntimeCondition
deriving DecidableEq, Repr

/-- The field `Spec.Fuse` of the runtime: only `Global` is read. -/
structure AlluxioFuseSpec where
  Global : Bool
deriving DecidableEq, Repr

/-- The fields of `datav1alpha1.AlluxioRuntimeSpec` that `SyncReplicas` reads. -/
structure AlluxioRuntimeSpec where
  Replicas : Int
  Fuse : AlluxioFuseSpec
deriving DecidableEq, Repr

/-- The resource `datav1alpha1.AlluxioRuntime`: metadata version, spec and status. -/
structure AlluxioRuntime where
  ResourceVersion : Nat
  Spec : AlluxioRuntimeSpec
  Status : RuntimeStatus
deriving DecidableEq, Repr

/-- Modelled from the spec: `AlluxioRuntime.Replicas()` is declared in `api/v1alpha1`; the
spec calls its result the spec-derived target replica count, read from `spec.replicas`. -/
def AlluxioRuntime.Replicas (runtime : AlluxioRuntime) : Int :=
  runtime.Spec.Replicas

/-- The generated `DeepCopy`: a value copy. -/
def AlluxioRuntime.DeepCopy (runtime : AlluxioRuntime) : AlluxioRuntime :=
  runtime

/-- The comparison `reflect.DeepEqual` on two status values: structural equality. -/
def DeepEqual (a b : RuntimeStatus) : Bool :=
  decide (a = b)

/-- The package-level constants `SyncReplicas` names. They are declared outside this file
(`api/v1alpha1`, `pkg/common`, `client-go`), so they are parameters here.
`RuntimeWorkerScaledOut` is the condition type for a scale-out; `DefaultBackoffSteps` is the
attempt budget of `retry.DefaultBackoff`. -/
structure Constants where
  RuntimeWorkerScaledOut : RuntimeConditionType
  RuntimeWorkersScaledOutReason : String
  RuntimeWorkerScaledIn : RuntimeConditionType
  RuntimeWorkersScaledInReason : String
  RuntimeFusesScaledIn : RuntimeConditionType
  RuntimeFusesScaledInReason : String
  Succeed : String
  RuntimeScaleInFailed : String
  DefaultBackoffSteps : Nat
deriving DecidableEq, Repr

/-- One observable step of a reconciliation cycle. -/
inductive Action where
  | getRuntime
  | SetupWorkers
  | CheckWorkersReady
  | destroyWorkers (expectedWorkers : Int)
  | StatusUpdate (obj : AlluxioRuntime) (result : Option Error)
  | Eventf (object : AlluxioRuntime) (eventtype : EventType) (reason : String)
      (messageFmt : String) (args : List Int)
  | LogError (err : Error) (msg : String)
  | LogInfo (msg : String)
deriving DecidableEq, Repr

/-- The collaborators of the engine, as state-passing functions on a world state `σ`. -/
structure AlluxioEngine (σ : Type) where
  getRuntime : σ → Except Error AlluxioRuntime × σ
  SetupWorkers : σ → Option Error × σ
  CheckWorkersReady : σ → Except Error Bool × σ
  destroyWorkers : Int → σ → Except Error Int × σ
  StatusUpdate : AlluxioRuntime → σ → Option Error × σ
  Now : σ → Nat × σ

/-- The world state together with the trace of what has been done so far. -/
structure World (σ : Type) where
  env : σ
  trace : List Action

variable {σ : Type}

/-- Append one action to the trace. -/
def World.record (w : World σ) (a : Action) : World σ :=
  ⟨w.env, w.trace ++ [a]⟩

/-! ## Collaborator calls, recorded in the trace -/

/-- The call `e.getRuntime()`. -/
def getRuntime (e : AlluxioEngine σ) (w : World σ) : Except Error AlluxioRuntime × World σ :=
  ((e.getRuntime w.env).1, ⟨(e.getRuntime w.env).2, w.trace ++ [Action.getRuntime]⟩)

/-- The call `e.SetupWorkers()`. -/
def SetupWorkers (e : AlluxioEngine σ) (w : World σ) : Option Error × World σ :=
  ((e.SetupWorkers w.env).1, ⟨(e.SetupWorkers w.env).2, w.trace ++ [Action.SetupWorkers]⟩)

/-- The call `e.CheckWorkersReady()`. -/
def CheckWorkersReady (e : AlluxioEngine σ) (w : World σ) : Except Error Bool × World σ :=
  ((e.CheckWorkersReady w.env).1,
    ⟨(e.CheckWorkersReady w.env).2, w.trace ++ [Action.CheckWorkersReady]⟩)

/-- The call `e.destroyWorkers(replicas)`. -/
def destroyWorkers (e : AlluxioEngine σ) (replicas : Int) (w : World σ) :
    Except Error Int × World σ :=
  ((e.destroyWorkers replicas w.env).1,
    ⟨(e.destroyWorkers replicas w.env).2, w.trace ++ [Action.destroyWorkers replicas]⟩)

/-- The call `e.Client.Status().Update(ctx, obj)`: the conditional status write. -/
def StatusUpdate (e : AlluxioEngine σ) (obj : AlluxioRuntime) (w : World σ) :
    Option Error × World σ :=
  ((e.StatusUpdate obj w.env).1,
    ⟨(e.StatusUpdate obj w.env).2,
      w.trace ++ [Action.StatusUpdate obj (e.StatusUpdate obj w.env).1]⟩)

/-! ## Helpers of `pkg/utils` and `client-go` -/

/-- Modelled from the spec: `utils.NewRuntimeCondition` is not in this file; it builds a
condition of the given type, reason, message and status, stamped with the current time. -/
def NewRuntimeCondition (conditionType : RuntimeConditionType) (reason message : String)
    (status : ConditionStatus) (now : Nat) : RuntimeCondition :=
  ⟨conditionType, reason, message, status, now⟩

/-- Modelled from the spec: `utils.UpdateRuntimeCondition` is not in this file; the spec has
publishing a condition of an existing type replace it in place, preserving position, and a
condition of a new type appended. -/
def UpdateRuntimeCondition :
    List RuntimeCondition → RuntimeCondition → List RuntimeCondition
  | [], c => [c]
  | x :: xs, c => if x.type = c.type then c :: xs else x :: UpdateRuntimeCondition xs c

/-- The loop of `retry.RetryOnConflict`: `fn` is tried while attempts remain; success ends
the loop, a conflict error is remembered and retried, any other error is returned at once. -/
def retryLoop (fn : World σ → Option Error × World σ) :
    Nat → Option Error → World σ → Option Error × World σ
  | 0, lastErr, w => (lastErr, w)
  | n + 1, _, w =>
    match fn w with
    | (none, w1) => (none, w1)
    | (some err, w1) => if err.isConflict then retryLoop fn n (some err) w1 else (some err, w1)

/-- Modelled from the spec: `retry.RetryOnConflict` belongs to `client-go`; the spec has a
conflict retried from the top up to the attempt budget, any other error returned
immediately, and the last error surfaced once the budget is exhausted. -/
def RetryOnConflict (steps : Nat) (fn : World σ → Option Error × World σ) (w : World σ) :
    Option Error × World σ :=
  retryLoop fn steps none w

/-- The worlds in which the loop of `retry.RetryOnConflict` calls `fn`, in order: the loop of
`retryLoop`, keeping the world each attempt starts from instead of its outcome. -/
def attemptWorlds (fn : World σ → Option Error × World σ) : Nat → World σ → List (World σ)
  | 0, _ => []
  | n + 1, w =>
    match fn w with
    | (none, _) => [w]
    | (some err, w1) => if err.isConflict then w :: attemptWorlds fn n w1 else [w]

/-! ## `SyncReplicas` -/

/-- Lines 57-62: the copy of the fetched runtime with the scale-out condition merged in. -/
def scaleOutMutation (K : Constants) (e : AlluxioEngine σ) (runtime : AlluxioRuntime) (s : σ) :
    AlluxioRuntime × σ :=
  let runtimeToUpdate := runtime.DeepCopy
  let cond := NewRuntimeCondition K.RuntimeWorkersScaledOutReason K.RuntimeWorkersScaledOutReason
    "The workers are scale out." ConditionStatus.ConditionTrue (e.Now s).1
  ({ runtimeToUpdate with
      Status := { runtimeToUpdate.Status with
        Conditions := UpdateRuntimeCondition runtimeToUpdate.Status.Conditions cond } },
    (e.Now s).2)

/-- Lines 52-68: one attempt of the scale-out status publication. -/
def scaleOutAttempt (K : Constants) (e : AlluxioEngine σ) (w : World σ) :
    Option Error × World σ :=
  match getRuntime e w with
  | (Except.error err, w1) => (some err, w1)
  | (Except.ok runtime, w1) =>
    let runtimeToUpdate := (scaleOutMutation K e runtime w1.env).1
    let w2 : World σ := ⟨(scaleOutMutation K e runtime w1.env).2, w1.trace⟩
    if !DeepEqual runtime.Status runtimeToUpdate.Status then
      StatusUpdate e runtimeToUpdate w2
    else
      (none, w2)

/-- Lines 107-127: the copy of the fetched runtime with the scale-in counts and conditions. -/
def scaleInMutation (K : Constants) (e : AlluxioEngine σ) (replicas curReplicas : Int)
    (runtime : AlluxioRuntime) (s : σ) : AlluxioRuntime × σ :=
  let runtimeToUpdate := runtime.DeepCopy
  let runtimeToUpdate : AlluxioRuntime :=
    if runtimeToUpdate.Status.Conditions.length = 0 then
      { runtimeToUpdate with Status := { runtimeToUpdate.Status with Conditions := [] } }
    else runtimeToUpdate
  let runtimeToUpdate : AlluxioRuntime :=
    { runtimeToUpdate with
      Status := { runtimeToUpdate.Status with DesiredWorkerNumberScheduled := replicas } }
  let runtimeToUpdate : AlluxioRuntime :=
    { runtimeToUpdate with
      Status := { runtimeToUpdate.Status with CurrentWorkerNumberScheduled := curReplicas } }
  let cond := NewRuntimeCondition K.RuntimeWorkerScaledIn K.RuntimeWorkersScaledInReason
    "The workers scaled in." ConditionStatus.ConditionTrue (e.Now s).1
  let s1 := (e.Now s).2
  let runtimeToUpdate : AlluxioRuntime :=
    { runtimeToUpdate with
      Status := { runtimeToUpdate.Status with
        Conditions := UpdateRuntimeCondition runtimeToUpdate.Status.Conditions cond } }
  if !runtimeToUpdate.Spec.Fuse.Global then
    let runtimeToUpdate : AlluxioRuntime :=
      { runtimeToUpdate with
        Status := { runtimeToUpdate.Status with DesiredFuseNumberScheduled := replicas } }
    let runtimeToUpdate : AlluxioRuntime :=
      { runtimeToUpdate with
        Status := { runtimeToUpdate.Status with CurrentWorkerNumberScheduled := curReplicas } }
    let fuseCond := NewRuntimeCondition K.RuntimeFusesScaledIn K.RuntimeFusesScaledInReason
      "The fuses scaled in." ConditionStatus.ConditionTrue (e.Now s1).1
    ({ runtimeToUpdate with
        Status := { runtimeToUpdate.Status with
          Conditions := UpdateRuntimeCondition runtimeToUpdate.Status.Conditions fuseCond } },
      (e.Now s1).2)
  else
    (runtimeToUpdate, s1)

/-- Lines 101-133: one attempt of the scale-in status publication. -/
def scaleInAttempt (K : Constants) (e : AlluxioEngine σ) (replicas curReplicas : Int)
    (w : World σ) : Option Error × World σ :=
  match getRuntime e w with
  | (Except.error err, w1) =>
    (some err, w1.record (Action.LogError err "scale in when sync replicas"))
  | (Except.ok runtime, w1) =>
    let runtimeToUpdate := (scaleInMutation K e replicas curReplicas runtime w1.env).1
    let w2 : World σ := ⟨(scaleInMutation K e replicas curReplicas runtime w1.env).2, w1.trace⟩
    if !DeepEqual runtime.Status runtimeToUpdate.Status then
      StatusUpdate e runtimeToUpdate w2
    else
      (none, w2)

/-- The method `AlluxioEngine.SyncReplicas`: the returned `Option Error` is the Go `err`
(`none` for `nil`), the returned world holds the trace of the cycle. -/
def SyncReplicas (K : Constants) (e : AlluxioEngine σ) (w : World σ) :
    Option Error × World σ :=
  match getRuntime e w with
  | (Except.error err, w1) => (some err, w1)
  | (Except.ok runtime, w1) =>
    let desireReplicas := runtime.Replicas
    if desireReplicas > runtime.Status.CurrentWorkerNumberScheduled then
      match SetupWorkers e w1 with
      | (some err, w2) => (some err, w2)
      | (none, w2) =>
        match CheckWorkersReady e w2 with
        | (Except.error err, w3) =>
          (some err, w3.record (Action.LogError err "Check if the workers are ready"))
        | (Except.ok _, w3) =>
          -- update conditions
          match RetryOnConflict K.DefaultBackoffSteps (scaleOutAttempt K e) w3 with
          | (some err, w4) => (some err, w4)
          | (none, w4) =>
            -- add the event
            match getRuntime e w4 with
            | (Except.error err, w5) => (some err, w5)
            | (Except.ok runtime, w5) =>
              let currentReplicas := runtime.Status.CurrentWorkerNumberScheduled
              let desireReplicas := runtime.Status.DesiredWorkerNumberScheduled
              (none, w5.record (Action.Eventf runtime EventType.EventTypeNormal K.Succeed
                "Alluxio runtime scaled out. current replicas: %d, desired replicas: %d."
                [currentReplicas, desireReplicas]))
    else if desireReplicas < runtime.Status.CurrentWorkerNumberScheduled then
      let replicas := runtime.Replicas
      let w2 := w1.record (Action.LogInfo "Scaling in Alluxio workers")
      match destroyWorkers e replicas w2 with
      | (Except.error err, w3) => (some err, w3)
      | (Except.ok curReplicas, w3) =>
        let w4 :=
          if curReplicas > replicas then
            w3.record (Action.Eventf runtime EventType.EventTypeWarning K.RuntimeScaleInFailed
              "Alluxio workers are being used by some pods, can\x27t scale in (expected replicas: %v, current replicas: %v)"
              [replicas, curReplicas])
          else
            w3.record (Action.Eventf runtime EventType.EventTypeNormal K.Succeed
              "Alluxio runtime scaled in. current replicas: %d, desired replicas: %d."
              [curReplicas, desireReplicas])
        match RetryOnConflict K.DefaultBackoffSteps (scaleInAttempt K e replicas curReplicas) w4 with
        | (some err, w5) => (some err, w5)
        | (none, w5) => (none, w5)
    else
      (none, w1.record (Action.LogInfo "Nothing to do"))

/-! ## Reading a trace -/

/-- Is the action an emitted event? -/
def Action.isEvent : Action → Bool
  | Action.Eventf _ _ _ _ _ => true
  | _ => false

/-- The events of a trace, in order. -/
def eventsOf (tr : List Action) : List Action :=
  tr.filter Action.isEvent

/-- Is the action a status write (whatever its outcome)? -/
def Action.isStatusWrite : Action → Bool
  | Action.StatusUpdate _ _ => true
  | _ => false

/-- The status writes of a trace, in order. -/
def writesOf (tr : List Action) : List Action :=
  tr.filter Action.isStatusWrite

/-- The conditions of a given type within a condition list, in order. -/
def conditionsOfType (t : RuntimeConditionType) (cs : List RuntimeCondition) :
    List RuntimeCondition :=
  cs.filter (fun c => decide (c.type = t))

/-- Lines 92-98: the event a scale-in emits for the outcome of the destruction. -/
def scaleInEvent (K : Constants) (runtime : AlluxioRuntime) (curReplicas : Int) : Action :=
  if curReplicas > runtime.Replicas then
    Action.Eventf runtime EventType.EventTypeWarning K.RuntimeScaleInFailed
      "Alluxio workers are being used by some pods, can\x27t scale in (expected replicas: %v, current replicas: %v)"
      [runtime.Replicas, curReplicas]
  else
    Action.Eventf runtime EventType.EventTypeNormal K.Succeed
      "Alluxio runtime scaled in. current replicas: %d, desired replicas: %d."
      [curReplicas, runtime.Replicas]

/-- An action that an attempt of a status publication may perform, for the mutation of
the path: a fetch, a log line, or a write of the mutation applied to a runtime that a fetch has just
returned (in the world state that fetch left). -/
def AttemptAction (e : AlluxioEngine σ) (mutation : AlluxioRuntime → σ → AlluxioRuntime × σ)
    (a : Action) : Prop :=
  a = Action.getRuntime ∨ (∃ err msg, a = Action.LogError err msg) ∨
    ∃ r sa sb res, e.getRuntime sa = (Except.ok r, sb) ∧
      a = Action.StatusUpdate (mutation r sb).1 res

/-- The action is not a status write that succeeded. -/
def NotAcceptedWrite (a : Action) : Prop :=
  ∀ obj, a ≠ Action.StatusUpdate obj none

/-- The outcome `out` of running a step from `w` extends the trace of `w` by actions that all
satisfy `P`; and unless the step returned nil, none of them is an accepted write. -/
def Extends (P : Action → Prop) (w : World σ) (out : Option Error × World σ) : Prop :=
  ∃ added, out.2.trace = w.trace ++ added ∧ (∀ a ∈ added, P a) ∧
    (out.1 = none ∨ ∀ a ∈ added, NotAcceptedWrite a)

/-! ## A scripted world, for evaluating the engine on concrete runs -/

/-- The answers the collaborators will give, in the order they are asked. -/
structure Script where
  fetches : List (Except Error AlluxioRuntime)
  setup : Option Error
  ready : Except Error Bool
  destroy : Except Error Int
  updates : List (Option Error)
  clock : Nat

/-- The error a scripted collaborator answers once its script is used up. -/
def scriptEnd : Error :=
  ⟨false, "script exhausted"⟩

/-- The engine whose collaborators read their answers off a `Script`. -/
def scripted : AlluxioEngine Script where
  getRuntime s :=
    match s.fetches with
    | [] => (Except.error scriptEnd, s)
    | r :: rest => (r, { s with fetches := rest })
  SetupWorkers s := (s.setup, s)
  CheckWorkersReady s := (s.ready, s)
  destroyWorkers _ s := (s.destroy, s)
  StatusUpdate _ s :=
    match s.updates with
    | [] => (some scriptEnd, s)
    | r :: rest => (r, { s with updates := rest })
  Now s := (s.clock, { s with clock := s.clock + 1 })

/-- A valuation of the constants: the condition types under the names the spec uses, the
reasons as sentences, and a budget of four attempts. -/
def sampleConstants : Constants where
  RuntimeWorkerScaledOut := "WorkersScaledOut"
  RuntimeWorkersScaledOutReason := "Workers scaled out"
  RuntimeWorkerScaledIn := "WorkersScaledIn"
  RuntimeWorkersScaledInReason := "Workers scaled in"
  RuntimeFusesScaledIn := "FusesScaledIn"
  RuntimeFusesScaledInReason := "Fuses scaled in"
  Succeed := "Succeed"
  RuntimeScaleInFailed := "RuntimeScaleInFailed"
  DefaultBackoffSteps := 4

/-- A runtime with the given desired replicas, current worker count, fuse mode and
conditions; the other counts are zero. -/
def mkRuntime (version : Nat) (replicas current : Int) (fuseGlobal : Bool)
    (conds : List RuntimeCondition) : AlluxioRuntime :=
  ⟨version, ⟨replicas, ⟨fuseGlobal⟩⟩, ⟨0, current, 0, 0, conds⟩⟩

/-- A condition left by a concurrent writer between two attempts. -/
def workersReady : RuntimeCondition :=
  ⟨"WorkersReady", "Workers are ready", "The workers are ready.",
    ConditionStatus.ConditionTrue, 50⟩

/-- The scripted run of the spec's partial scale-in: current 5, desired 2, destruction
achieves 4, the first write is accepted. -/
def partialScaleIn : Script :=
  ⟨[Except.ok (mkRuntime 1 2 5 false []), Except.ok (mkRuntime 1 2 5 false [])],
    none, Except.ok true, Except.ok 4, [none], 100⟩

/-- The scripted run of the spec's full scale-in: current 5, desired 2, destruction
achieves 2, the first write is accepted. -/
def fullScaleIn : Script :=
  ⟨[Except.ok (mkRuntime 1 2 5 false []), Except.ok (mkRuntime 1 2 5 false [])],
    none, Except.ok true, Except.ok 2, [none], 100⟩

/-- The scripted run in which destruction reports more workers than the status had observed:
current 5, desired 2, destruction reports 7, the first write is accepted. -/
def overReportedScaleIn : Script :=
  ⟨[Except.ok (mkRuntime 1 2 5 false []), Except.ok (mkRuntime 1 2 5 false [])],
    none, Except.ok true, Except.ok 7, [none], 100⟩

/-- The scripted run in which provisioning fails: desired 5, current 2. -/
def provisionFails : Script :=
  ⟨[Except.ok (mkRuntime 1 5 2 false [])], some ⟨false, "provision failed"⟩,
    Except.ok true, Except.ok 5, [none], 0⟩

/-- The scripted run in which the readiness check fails: desired 5, current 2. -/
def readinessFails : Script :=
  ⟨[Except.ok (mkRuntime 1 5 2 false [])], none,
    Except.error ⟨false, "workers not ready"⟩, Except.ok 5, [none], 0⟩

/-- The scripted run in which destruction fails: desired 2, current 5. -/
def destroyFails : Script :=
  ⟨[Except.ok (mkRuntime 1 2 5 false [])], none, Except.ok true,
    Except.error ⟨false, "destroy failed"⟩, [none], 0⟩

/-- A fetched runtime in global-fuse mode: desired 2, current 5, fuse desired count 3 and an
earlier fuse condition. -/
def globalFuseRuntime : AlluxioRuntime :=
  ⟨1, ⟨2, ⟨true⟩⟩, ⟨5, 5, 3, 3,
    [⟨"FusesScaledIn", "Fuses scaled in", "The fuses scaled in.",
      ConditionStatus.ConditionTrue, 7⟩]⟩⟩

/-- Version 2 of `globalFuseRuntime`, as a concurrent writer left it: fuse desired count 9 and
a fuse condition stamped 60. -/
def globalFuseRuntimeV2 : AlluxioRuntime :=
  ⟨2, ⟨2, ⟨true⟩⟩, ⟨5, 5, 9, 3,
    [⟨"FusesScaledIn", "Fuses scaled in", "The fuses scaled in.",
      ConditionStatus.ConditionTrue, 60⟩]⟩⟩

/-- The scripted scale-in in global-fuse mode with one conflict: the cycle and the first
attempt fetch `globalFuseRuntime`, the first write is rejected with a conflict, the second
attempt fetches `globalFuseRuntimeV2`, the second write is accepted. -/
def globalFuseConflict : Script :=
  ⟨[Except.ok globalFuseRuntime, Except.ok globalFuseRuntime, Except.ok globalFuseRuntimeV2],
    none, Except.ok true, Except.ok 2, [some ⟨true, "conflict"⟩, none], 100⟩

/-- The scripted run of the spec's scale-out: current 2, desired 5, no condition yet;
provisioning and readiness succeed, the first write is accepted, and the fetch after the
publication returns the updated runtime. -/
def scaleOutRun : Script :=
  ⟨[Except.ok (mkRuntime 1 5 2 false []), Except.ok (mkRuntime 1 5 2 false []),
      Except.ok (mkRuntime 2 5 2 false
        [⟨"Workers scaled out", "Workers scaled out", "The workers are scale out.",
          ConditionStatus.ConditionTrue, 100⟩])],
    none, Except.ok true, Except.ok 5, [none], 100⟩

/-- The scripted scale-in with one conflict: current 5, desired 2, destruction achieves 4;
the first write is rejected with a conflict, the second fetch returns version 2 of the
runtime (now carrying `workersReady`), the second write is accepted. -/
def conflictScaleIn : Script :=
  ⟨[Except.ok (mkRuntime 1 2 5 false []), Except.ok (mkRuntime 1 2 5 false []),
      Except.ok (mkRuntime 2 2 5 false [workersReady])],
    none, Except.ok true, Except.ok 4, [some ⟨true, "conflict"⟩, none], 100⟩

/-- The scripted scale-out with one conflict: current 2, desired 5; the first write is
rejected with a conflict, the second fetch returns version 2 of the runtime, the second write
is accepted, and the fetch after the publication returns version 3 with current 5. -/
def conflictScaleOut : Script :=
  ⟨[Except.ok (mkRuntime 1 5 2 false []), Except.ok (mkRuntime 1 5 2 false []),
      Except.ok (mkRuntime 2 5 2 false [workersReady]),
      Except.ok (mkRuntime 3 5 5 false [workersReady])],
    none, Except.ok true, Except.ok 5, [some ⟨true, "conflict"⟩, none], 100⟩

/-- The scripted scale-out with one conflict in which the fetch after the publication
fails. -/
def conflictScaleOutFetchFails : Script :=
  ⟨[Except.ok (mkRuntime 1 5 2 false []), Except.ok (mkRuntime 1 5 2 false []),
      Except.ok (mkRuntime 2 5 2 false [workersReady]),
      Except.error ⟨false, "fetch failed"⟩],
    none, Except.ok true, Except.ok 5, [some ⟨true, "conflict"⟩, none], 100⟩

/-- A world in which the scale-out condition is already published with the time the clock
shows: the mutated status equals the fetched one. -/
def settledScaleOut : Script :=
  ⟨[Except.ok (mkRuntime 2 5 2 false
      [⟨"Workers scaled out", "Workers scaled out", "The workers are scale out.",
        ConditionStatus.ConditionTrue, 100⟩])],
    none, Except.ok true, Except.ok 5, [none], 100⟩

/-- A runtime in global-fuse mode whose status already shows the outcome of a scale-in to
target 2 with 4 workers left, stamped 100. -/
def settledRuntime : AlluxioRuntime :=
  ⟨2, ⟨2, ⟨true⟩⟩, ⟨2, 4, 0, 0,
    [⟨"WorkersScaledIn", "Workers scaled in", "The workers scaled in.",
      ConditionStatus.ConditionTrue, 100⟩]⟩⟩

/-- A world in which the next fetch returns `settledRuntime` and the clock shows 100. -/
def settledScaleIn : Script :=
  ⟨[Except.ok settledRuntime], none, Except.ok true, Except.ok 4, [none], 100⟩

/-- A world in which the next fetch returns a runtime without conditions (current 2,
desired 5) and the next write is accepted. -/
def unsettled : Script :=
  ⟨[Except.ok (mkRuntime 1 5 2 false [])], none, Except.ok true, Except.ok 4, [none], 100⟩

/-! ## Unfolding the recorded calls -/

theorem getRuntime_eq (e : AlluxioEngine σ) (s s1 : σ) (tr : List Action)
    (x : Except Error AlluxioRuntime) (h : e.getRuntime s = (x, s1)) :
    getRuntime e ⟨s, tr⟩ = (x, ⟨s1, tr ++ [Action.getRuntime]⟩) := by
  simp [getRuntime, h]

theorem SetupWorkers_eq (e : AlluxioEngine σ) (s s1 : σ) (tr : List Action)
    (x : Option Error) (h : e.SetupWorkers s = (x, s1)) :
    SetupWorkers e ⟨s, tr⟩ = (x, ⟨s1, tr ++ [Action.SetupWorkers]⟩) := by
  simp [SetupWorkers, h]

theorem CheckWorkersReady_eq (e : AlluxioEngine σ) (s s1 : σ) (tr : List Action)
    (x : Except Error Bool) (h : e.CheckWorkersReady s = (x, s1)) :
    CheckWorkersReady e ⟨s, tr⟩ = (x, ⟨s1, tr ++ [Action.CheckWorkersReady]⟩) := by
  simp [CheckWorkersReady, h]

theorem destroyWorkers_eq (e : AlluxioEngine σ) (n : Int) (s s1 : σ) (tr : List Action)
    (x : Except Error Int) (h : e.destroyWorkers n s = (x, s1)) :
    destroyWorkers e n ⟨s, tr⟩ = (x, ⟨s1, tr ++ [Action.destroyWorkers n]⟩) := by
  simp [destroyWorkers, h]

theorem StatusUpdate_eq (e : AlluxioEngine σ) (obj : AlluxioRuntime) (s s1 : σ)
    (tr : List Action) (x : Option Error) (h : e.StatusUpdate obj s = (x, s1)) :
    StatusUpdate e obj ⟨s, tr⟩ = (x, ⟨s1, tr ++ [Action.StatusUpdate obj x]⟩) := by
  simp [StatusUpdate, h]

theorem DeepEqual_eq_false (a b : RuntimeStatus) (h : b ≠ a) : DeepEqual a b = false := by
  simp [DeepEqual, Ne.symm h]

theorem DeepEqual_eq_true (a b : RuntimeStatus) (h : b = a) : DeepEqual a b = true := by
  simp [DeepEqual, h]

/-! ## The merge of a condition into a condition list -/

theorem mem_UpdateRuntimeCondition (cs : List RuntimeCondition) (c : RuntimeCondition) :
    c ∈ UpdateRuntimeCondition cs c := by
  induction cs with
  | nil => simp [UpdateRuntimeCondition]
  | cons x xs ih =>
    by_cases h : x.type = c.type
    · simp [UpdateRuntimeCondition, h]
    · simp [UpdateRuntimeCondition, h, ih]

theorem UpdateRuntimeCondition_keeps (cs : List RuntimeCondition) (c : RuntimeCondition)
    (t : RuntimeConditionType) (st : ConditionStatus) (hc : c.status = st)
    (h : ∃ x ∈ cs, x.type = t ∧ x.status = st) :
    ∃ x ∈ UpdateRuntimeCondition cs c, x.type = t ∧ x.status = st := by
  induction cs with
  | nil => simp at h
  | cons y ys ih =>
    obtain ⟨x, hx, hxt, hxs⟩ := h
    by_cases hy : y.type = c.type
    · simp only [UpdateRuntimeCondition, hy, if_true]
      rcases List.mem_cons.mp hx with rfl | hmem
      · exact ⟨c, by simp, by rw [← hy, hxt], hc⟩
      · exact ⟨x, by simp [hmem], hxt, hxs⟩
    · simp only [UpdateRuntimeCondition, hy, if_false]
      rcases List.mem_cons.mp hx with rfl | hmem
      · exact ⟨x, by simp, hxt, hxs⟩
      · obtain ⟨z, hz, hzt, hzs⟩ := ih ⟨x, hmem, hxt, hxs⟩
        exact ⟨z, by simp [hz], hzt, hzs⟩

theorem conditionsOfType_UpdateRuntimeCondition (cs : List RuntimeCondition)
    (c : RuntimeCondition) (t : RuntimeConditionType) (h : c.type ≠ t) :
    conditionsOfType t (UpdateRuntimeCondition cs c) = conditionsOfType t cs := by
  induction cs with
  | nil => simp [UpdateRuntimeCondition, conditionsOfType, h]
  | cons y ys ih =>
    by_cases hy : y.type = c.type
    · have hyt : y.type ≠ t := by rw [hy]; exact h
      simp [UpdateRuntimeCondition, hy, conditionsOfType, h]
    · simp only [UpdateRuntimeCondition, hy, if_false]
      simp only [conditionsOfType, List.filter_cons] at ih ⊢
      rw [ih]

/-! ## What the mutations change -/

theorem emptyConditions_eq (r : AlluxioRuntime) :
    (if r.Status.Conditions.length = 0 then
        ({ r with Status := { r.Status with Conditions := [] } } : AlluxioRuntime)
      else r) = r := by
  split
  · next h =>
    rcases r with ⟨v, sp, ⟨a, b, c, d, cs⟩⟩
    simp only [List.length_eq_zero] at h
    simp [h]
  · rfl

theorem scaleInMutation_global (K : Constants) (e : AlluxioEngine σ) (replicas curReplicas : Int)
    (r : AlluxioRuntime) (s : σ) (hG : r.Spec.Fuse.Global = true) :
    (scaleInMutation K e replicas curReplicas r s).1
      = { r with
          Status := { r.Status with
            DesiredWorkerNumberScheduled := replicas
            CurrentWorkerNumberScheduled := curReplicas
            Conditions := UpdateRuntimeCondition r.Status.Conditions
              (NewRuntimeCondition K.RuntimeWorkerScaledIn K.RuntimeWorkersScaledInReason
                "The workers scaled in." ConditionStatus.ConditionTrue (e.Now s).1) } } := by
  simp only [scaleInMutation, AlluxioRuntime.DeepCopy, emptyConditions_eq, hG]
  rfl

theorem scaleInMutation_not_global (K : Constants) (e : AlluxioEngine σ)
    (replicas curReplicas : Int) (r : AlluxioRuntime) (s : σ)
    (hG : r.Spec.Fuse.Global = false) :
    (scaleInMutation K e replicas curReplicas r s).1
      = { r with
          Status := { r.Status with
            DesiredWorkerNumberScheduled := replicas
            CurrentWorkerNumberScheduled := curReplicas
            DesiredFuseNumberScheduled := replicas
            Conditions := UpdateRuntimeCondition
              (UpdateRuntimeCondition r.Status.Conditions
                (NewRuntimeCondition K.RuntimeWorkerScaledIn K.RuntimeWorkersScaledInReason
                  "The workers scaled in." ConditionStatus.ConditionTrue (e.Now s).1))
              (NewRuntimeCondition K.RuntimeFusesScaledIn K.RuntimeFusesScaledInReason
                "The fuses scaled in." ConditionStatus.ConditionTrue
                (e.Now (e.Now s).2).1) } } := by
  simp only [scaleInMutation, AlluxioRuntime.DeepCopy, emptyConditions_eq, hG]
  rfl

/-- The worker fields of the scale-in mutation, whatever the fuse mode. -/
theorem scaleInMutation_workers (K : Constants) (e : AlluxioEngine σ) (replicas curReplicas : Int)
    (r : AlluxioRuntime) (s : σ) :
    (scaleInMutation K e replicas curReplicas r s).1.Status.DesiredWorkerNumberScheduled
        = replicas ∧
    (scaleInMutation K e replicas curReplicas r s).1.Status.CurrentWorkerNumberScheduled
        = curReplicas ∧
    (∃ c ∈ (scaleInMutation K e replicas curReplicas r s).1.Status.Conditions,
        c.type = K.RuntimeWorkerScaledIn ∧ c.status = ConditionStatus.ConditionTrue) ∧
    (scaleInMutation K e replicas curReplicas r s).1.Spec = r.Spec ∧
    (scaleInMutation K e replicas curReplicas r s).1.ResourceVersion = r.ResourceVersion := by
  cases hG : r.Spec.Fuse.Global with
  | true =>
    rw [scaleInMutation_global K e replicas curReplicas r s hG]
    refine ⟨rfl, rfl, ?_, rfl, rfl⟩
    exact ⟨_, mem_UpdateRuntimeCondition _ _, rfl, rfl⟩
  | false =>
    rw [scaleInMutation_not_global K e replicas curReplicas r s hG]
    refine ⟨rfl, rfl, ?_, rfl, rfl⟩
    exact UpdateRuntimeCondition_keeps _ _ _ _ rfl
      ⟨_, mem_UpdateRuntimeCondition _ _, rfl, rfl⟩

theorem scaleOutMutation_eq (K : Constants) (e : AlluxioEngine σ) (r : AlluxioRuntime) (s : σ) :
    (scaleOutMutation K e r s).1
      = { r with
          Status := { r.Status with
            Conditions := UpdateRuntimeCondition r.Status.Conditions
              (NewRuntimeCondition K.RuntimeWorkersScaledOutReason
                K.RuntimeWorkersScaledOutReason "The workers are scale out."
                ConditionStatus.ConditionTrue (e.Now s).1) } } := by
  rfl

/-! ## One attempt of a publication -/

theorem scaleOutAttempt_write (K : Constants) (e : AlluxioEngine σ) (s s1 : σ)
    (tr : List Action) (r : AlluxioRuntime)
    (hf : e.getRuntime s = (Except.ok r, s1))
    (hne : (scaleOutMutation K e r s1).1.Status ≠ r.Status) :
    scaleOutAttempt K e ⟨s, tr⟩
      = ((e.StatusUpdate (scaleOutMutation K e r s1).1 (scaleOutMutation K e r s1).2).1,
          ⟨(e.StatusUpdate (scaleOutMutation K e r s1).1 (scaleOutMutation K e r s1).2).2,
            tr ++ [Action.getRuntime, Action.StatusUpdate (scaleOutMutation K e r s1).1
              (e.StatusUpdate (scaleOutMutation K e r s1).1
                (scaleOutMutation K e r s1).2).1]⟩) := by
  simp [scaleOutAttempt, getRuntime_eq e s s1 tr _ hf, DeepEqual_eq_false _ _ hne,
    StatusUpdate]

theorem scaleOutAttempt_skip (K : Constants) (e : AlluxioEngine σ) (s s1 : σ)
    (tr : List Action) (r : AlluxioRuntime)
    (hf : e.getRuntime s = (Except.ok r, s1))
    (heq : (scaleOutMutation K e r s1).1.Status = r.Status) :
    scaleOutAttempt K e ⟨s, tr⟩
      = (none, ⟨(scaleOutMutation K e r s1).2, tr ++ [Action.getRuntime]⟩) := by
  simp [scaleOutAttempt, getRuntime_eq e s s1 tr _ hf, DeepEqual_eq_true _ _ heq]

theorem scaleInAttempt_write (K : Constants) (e : AlluxioEngine σ) (replicas curReplicas : Int)
    (s s1 : σ) (tr : List Action) (r : AlluxioRuntime)
    (hf : e.getRuntime s = (Except.ok r, s1))
    (hne : (scaleInMutation K e replicas curReplicas r s1).1.Status ≠ r.Status) :
    scaleInAttempt K e replicas curReplicas ⟨s, tr⟩
      = ((e.StatusUpdate (scaleInMutation K e replicas curReplicas r s1).1
            (scaleInMutation K e replicas curReplicas r s1).2).1,
          ⟨(e.StatusUpdate (scaleInMutation K e replicas curReplicas r s1).1
              (scaleInMutation K e replicas curReplicas r s1).2).2,
            tr ++ [Action.getRuntime,
              Action.StatusUpdate (scaleInMutation K e replicas curReplicas r s1).1
                (e.StatusUpdate (scaleInMutation K e replicas curReplicas r s1).1
                  (scaleInMutation K e replicas curReplicas r s1).2).1]⟩) := by
  simp [scaleInAttempt, getRuntime_eq e s s1 tr _ hf, DeepEqual_eq_false _ _ hne,
    StatusUpdate]

theorem scaleInAttempt_skip (K : Constants) (e : AlluxioEngine σ) (replicas curReplicas : Int)
    (s s1 : σ) (tr : List Action) (r : AlluxioRuntime)
    (hf : e.getRuntime s = (Except.ok r, s1))
    (heq : (scaleInMutation K e replicas curReplicas r s1).1.Status = r.Status) :
    scaleInAttempt K e replicas curReplicas ⟨s, tr⟩
      = (none, ⟨(scaleInMutation K e replicas curReplicas r s1).2,
          tr ++ [Action.getRuntime]⟩) := by
  simp [scaleInAttempt, getRuntime_eq e s s1 tr _ hf, DeepEqual_eq_true _ _ heq]

theorem scaleOutAttempt_extends (K : Constants) (e : AlluxioEngine σ) (w : World σ) :
    Extends (AttemptAction e (scaleOutMutation K e)) w (scaleOutAttempt K e w) := by
  rcases hf : e.getRuntime w.env with ⟨x, s1⟩
  cases x with
  | error err =>
    refine ⟨[Action.getRuntime], ?_, ?_, Or.inr ?_⟩
    · simp [scaleOutAttempt, getRuntime, hf]
    · intro a ha
      simp at ha
      exact Or.inl ha
    · intro a ha obj
      simp at ha
      simp [ha]
  | ok r =>
    by_cases hd : DeepEqual r.Status (scaleOutMutation K e r s1).1.Status = true
    · refine ⟨[Action.getRuntime], ?_, ?_, Or.inl ?_⟩
      · simp [scaleOutAttempt, getRuntime, hf, hd]
      · intro a ha
        simp at ha
        exact Or.inl ha
      · simp [scaleOutAttempt, getRuntime, hf, hd]
    · refine ⟨[Action.getRuntime, Action.StatusUpdate (scaleOutMutation K e r s1).1
          (e.StatusUpdate (scaleOutMutation K e r s1).1 (scaleOutMutation K e r s1).2).1],
        ?_, ?_, ?_⟩
      · simp [scaleOutAttempt, getRuntime, hf, hd, StatusUpdate]
      · intro a ha
        simp at ha
        rcases ha with ha | ha
        · exact Or.inl ha
        · exact Or.inr (Or.inr ⟨r, w.env, s1, _, hf, ha⟩)
      · simp only [scaleOutAttempt, getRuntime, hf, hd, StatusUpdate]
        rcases hres : (e.StatusUpdate (scaleOutMutation K e r s1).1
            (scaleOutMutation K e r s1).2).1 with _ | err
        · exact Or.inl (by simp [hres])
        · refine Or.inr ?_
          intro a ha obj
          simp at ha
          rcases ha with ha | ha <;> simp [ha]

theorem scaleInAttempt_extends (K : Constants) (e : AlluxioEngine σ) (replicas curReplicas : Int)
    (w : World σ) :
    Extends (AttemptAction e (scaleInMutation K e replicas curReplicas)) w
      (scaleInAttempt K e replicas curReplicas w) := by
  rcases hf : e.getRuntime w.env with ⟨x, s1⟩
  cases x with
  | error err =>
    refine ⟨[Action.getRuntime, Action.LogError err "scale in when sync replicas"],
      ?_, ?_, Or.inr ?_⟩
    · simp [scaleInAttempt, getRuntime, hf, World.record]
    · intro a ha
      simp at ha
      rcases ha with ha | ha
      · exact Or.inl ha
      · exact Or.inr (Or.inl ⟨_, _, ha⟩)
    · intro a ha obj
      simp at ha
      rcases ha with ha | ha <;> simp [ha]
  | ok r =>
    by_cases hd : DeepEqual r.Status (scaleInMutation K e replicas curReplicas r s1).1.Status
        = true
    · refine ⟨[Action.getRuntime], ?_, ?_, Or.inl ?_⟩
      · simp [scaleInAttempt, getRuntime, hf, hd]
      · intro a ha
        simp at ha
        exact Or.inl ha
      · simp [scaleInAttempt, getRuntime, hf, hd]
    · refine ⟨[Action.getRuntime,
          Action.StatusUpdate (scaleInMutation K e replicas curReplicas r s1).1
            (e.StatusUpdate (scaleInMutation K e replicas curReplicas r s1).1
              (scaleInMutation K e replicas curReplicas r s1).2).1],
        ?_, ?_, ?_⟩
      · simp [scaleInAttempt, getRuntime, hf, hd, StatusUpdate]
      · intro a ha
        simp at ha
        rcases ha with ha | ha
        · exact Or.inl ha
        · exact Or.inr (Or.inr ⟨r, w.env, s1, _, hf, ha⟩)
      · simp only [scaleInAttempt, getRuntime, hf, hd, StatusUpdate]
        rcases hres : (e.StatusUpdate (scaleInMutation K e replicas curReplicas r s1).1
            (scaleInMutation K e replicas curReplicas r s1).2).1 with _ | err
        · exact Or.inl (by simp [hres])
        · refine Or.inr ?_
          intro a ha obj
          simp at ha
          rcases ha with ha | ha <;> simp [ha]

theorem AttemptAction_not_event (e : AlluxioEngine σ)
    (mutation : AlluxioRuntime → σ → AlluxioRuntime × σ) (a : Action)
    (h : AttemptAction e mutation a) : a.isEvent = false := by
  rcases h with h | ⟨_, _, h⟩ | ⟨_, _, _, _, _, h⟩ <;> rw [h] <;> rfl

theorem eventsOf_attempts (e : AlluxioEngine σ)
    (mutation : AlluxioRuntime → σ → AlluxioRuntime × σ) (added : List Action)
    (h : ∀ a ∈ added, AttemptAction e mutation a) : eventsOf added = [] := by
  unfold eventsOf
  rw [List.filter_eq_nil_iff]
  intro a ha
  simp [AttemptAction_not_event e mutation a (h a ha)]

theorem write_of_attempts (e : AlluxioEngine σ)
    (mutation : AlluxioRuntime → σ → AlluxioRuntime × σ) (obj : AlluxioRuntime)
    (res : Option Error) (h : AttemptAction e mutation (Action.StatusUpdate obj res)) :
    ∃ r sa sb, e.getRuntime sa = (Except.ok r, sb) ∧ obj = (mutation r sb).1 := by
  rcases h with h1 | ⟨_, _, h1⟩ | ⟨r, sa, sb, res1, hf, h1⟩
  · simp at h1
  · simp at h1
  · simp only [Action.StatusUpdate.injEq] at h1
    exact ⟨r, sa, sb, hf, h1.1⟩

/-! ## The retry loop -/

theorem retryLoop_extends (fn : World σ → Option Error × World σ) (P : Action → Prop)
    (hfn : ∀ w, Extends P w (fn w)) :
    ∀ (n : Nat) (last : Option Error) (w : World σ), Extends P w (retryLoop fn n last w) := by
  intro n
  induction n with
  | zero =>
    intro last w
    exact ⟨[], by simp [retryLoop], by simp, Or.inr (by simp)⟩
  | succ n ih =>
    intro last w
    obtain ⟨added, htr, hP, hQ⟩ := hfn w
    rcases hfw : fn w with ⟨r, w1⟩
    rw [hfw] at htr hQ
    cases r with
    | none => exact ⟨added, by simpa [retryLoop, hfw] using htr, hP, Or.inl (by simp [retryLoop, hfw])⟩
    | some err =>
      have hQ1 : ∀ a ∈ added, NotAcceptedWrite a := by
        rcases hQ with h | h
        · simp at h
        · exact h
      by_cases hc : err.isConflict = true
      · obtain ⟨added2, htr2, hP2, hQ2⟩ := ih (some err) w1
        refine ⟨added ++ added2, ?_, ?_, ?_⟩
        · simp only [retryLoop, hfw, hc, if_true]
          rw [htr2]
          simp only at htr
          rw [htr, List.append_assoc]
        · intro a ha
          rcases List.mem_append.mp ha with h | h
          · exact hP a h
          · exact hP2 a h
        · simp only [retryLoop, hfw, hc, if_true]
          rcases hQ2 with h | h
          · exact Or.inl h
          · refine Or.inr ?_
            intro a ha
            rcases List.mem_append.mp ha with h1 | h1
            · exact hQ1 a h1
            · exact h a h1
      · refine ⟨added, ?_, hP, Or.inr hQ1⟩
        simpa [retryLoop, hfw, hc] using htr

theorem RetryOnConflict_extends (fn : World σ → Option Error × World σ) (P : Action → Prop)
    (hfn : ∀ w, Extends P w (fn w)) (steps : Nat) (w : World σ) :
    Extends P w (RetryOnConflict steps fn w) :=
  retryLoop_extends fn P hfn steps none w

/-- A publication whose first attempt ends in a conflict and whose second attempt returns
nil: the loop returns nil in the world the second attempt left. -/
theorem RetryOnConflict_second_attempt (fn : World σ → Option Error × World σ) (steps : Nat)
    (hsteps : 2 ≤ steps) (w w1 w2 : World σ) (cerr : Error)
    (h1 : fn w = (some cerr, w1)) (hc : cerr.isConflict = true) (h2 : fn w1 = (none, w2)) :
    RetryOnConflict steps fn w = (none, w2) := by
  obtain ⟨n, rfl⟩ : ∃ n, steps = n + 2 := ⟨steps - 2, by omega⟩
  simp [RetryOnConflict, retryLoop, h1, hc, h2]

/-! ## The shape of a scale-in and of a scale-out cycle -/

theorem scaleInEvent_isEvent (K : Constants) (runtime : AlluxioRuntime) (curReplicas : Int) :
    (scaleInEvent K runtime curReplicas).isEvent = true := by
  unfold scaleInEvent
  split <;> rfl

theorem SyncReplicas_scaleIn_eq (K : Constants) (e : AlluxioEngine σ) (s s1 s2 : σ)
    (runtime : AlluxioRuntime) (achieved : Int)
    (hfetch : e.getRuntime s = (Except.ok runtime, s1))
    (hlt : runtime.Replicas < runtime.Status.CurrentWorkerNumberScheduled)
    (hdestroy : e.destroyWorkers runtime.Replicas s1 = (Except.ok achieved, s2)) :
    SyncReplicas K e ⟨s, []⟩
      = RetryOnConflict K.DefaultBackoffSteps (scaleInAttempt K e runtime.Replicas achieved)
          ⟨s2, [Action.getRuntime, Action.LogInfo "Scaling in Alluxio workers",
            Action.destroyWorkers runtime.Replicas, scaleInEvent K runtime achieved]⟩ := by
  have hngt : ¬ runtime.Replicas > runtime.Status.CurrentWorkerNumberScheduled := by omega
  simp only [SyncReplicas, getRuntime_eq e s s1 [] _ hfetch, hngt, hlt, World.record,
    destroyWorkers_eq e _ s1 s2 _ _ hdestroy, if_true, if_false, List.nil_append,
    List.cons_append, scaleInEvent]
  by_cases h : achieved > runtime.Replicas
  · simp only [h, if_true]
    rcases RetryOnConflict K.DefaultBackoffSteps _ _ with ⟨_ | _, _⟩ <;> rfl
  · simp only [h, if_false]
    rcases RetryOnConflict K.DefaultBackoffSteps _ _ with ⟨_ | _, _⟩ <;> rfl

theorem SyncReplicas_scaleIn_trace (K : Constants) (e : AlluxioEngine σ) (s s1 s2 : σ)
    (runtime : AlluxioRuntime) (achieved : Int)
    (hfetch : e.getRuntime s = (Except.ok runtime, s1))
    (hlt : runtime.Replicas < runtime.Status.CurrentWorkerNumberScheduled)
    (hdestroy : e.destroyWorkers runtime.Replicas s1 = (Except.ok achieved, s2)) :
    ∃ added, (SyncReplicas K e ⟨s, []⟩).2.trace
        = [Action.getRuntime, Action.LogInfo "Scaling in Alluxio workers",
            Action.destroyWorkers runtime.Replicas, scaleInEvent K runtime achieved] ++ added ∧
      (∀ a ∈ added, AttemptAction e (scaleInMutation K e runtime.Replicas achieved) a) ∧
      ((SyncReplicas K e ⟨s, []⟩).1 = none ∨ ∀ a ∈ added, NotAcceptedWrite a) := by
  rw [SyncReplicas_scaleIn_eq K e s s1 s2 runtime achieved hfetch hlt hdestroy]
  exact RetryOnConflict_extends _ _ (scaleInAttempt_extends K e runtime.Replicas achieved) _ _

/-- Every status write of a scale-in cycle writes the scale-in mutation of a runtime that a
fetch has just returned. -/
theorem SyncReplicas_scaleIn_writes (K : Constants) (e : AlluxioEngine σ) (s s1 s2 : σ)
    (runtime : AlluxioRuntime) (achieved : Int)
    (hfetch : e.getRuntime s = (Except.ok runtime, s1))
    (hlt : runtime.Replicas < runtime.Status.CurrentWorkerNumberScheduled)
    (hdestroy : e.destroyWorkers runtime.Replicas s1 = (Except.ok achieved, s2))
    (obj : AlluxioRuntime) (res : Option Error)
    (hmem : Action.StatusUpdate obj res ∈ (SyncReplicas K e ⟨s, []⟩).2.trace) :
    ∃ r sa sb, e.getRuntime sa = (Except.ok r, sb) ∧
      obj = (scaleInMutation K e runtime.Replicas achieved r sb).1 := by
  obtain ⟨added, htr, hP, -⟩ :=
    SyncReplicas_scaleIn_trace K e s s1 s2 runtime achieved hfetch hlt hdestroy
  rw [htr] at hmem
  rcases List.mem_append.mp hmem with h | h
  · exfalso
    unfold scaleInEvent at h
    split at h <;> simp at h
  · rcases hP _ h with h1 | ⟨_, _, h1⟩ | ⟨r, sa, sb, res1, hf, h1⟩
    · simp at h1
    · simp at h1
    · simp only [Action.StatusUpdate.injEq] at h1
      exact ⟨r, sa, sb, hf, h1.1⟩

/-- Every status write of a scale-out cycle writes the scale-out mutation of a runtime that a
fetch has just returned. -/
theorem SyncReplicas_scaleOut_writes (K : Constants) (e : AlluxioEngine σ) (s s1 : σ)
    (runtime : AlluxioRuntime)
    (hfetch : e.getRuntime s = (Except.ok runtime, s1))
    (hgt : runtime.Replicas > runtime.Status.CurrentWorkerNumberScheduled)
    (obj : AlluxioRuntime) (res : Option Error)
    (hmem : Action.StatusUpdate obj res ∈ (SyncReplicas K e ⟨s, []⟩).2.trace) :
    ∃ r sa sb, e.getRuntime sa = (Except.ok r, sb) ∧
      obj = (scaleOutMutation K e r sb).1 := by
  rcases hs : e.SetupWorkers s1 with ⟨x, s2⟩
  cases x with
  | some err =>
    simp [SyncReplicas, getRuntime_eq e s s1 [] _ hfetch, hgt,
      SetupWorkers_eq e s1 s2 _ _ hs] at hmem
  | none =>
    rcases hr : e.CheckWorkersReady s2 with ⟨y, s3⟩
    cases y with
    | error err =>
      simp [SyncReplicas, getRuntime_eq e s s1 [] _ hfetch, hgt,
        SetupWorkers_eq e s1 s2 _ _ hs, CheckWorkersReady_eq e s2 s3 _ _ hr,
        World.record] at hmem
    | ok ready =>
      obtain ⟨added, htr, hP, -⟩ := RetryOnConflict_extends _ _ (scaleOutAttempt_extends K e)
        K.DefaultBackoffSteps
        ⟨s3, [Action.getRuntime, Action.SetupWorkers, Action.CheckWorkersReady]⟩
      rcases hR : RetryOnConflict K.DefaultBackoffSteps (scaleOutAttempt K e)
        ⟨s3, [Action.getRuntime, Action.SetupWorkers, Action.CheckWorkersReady]⟩
        with ⟨z, ⟨s4, tr4⟩⟩
      rw [hR] at htr
      simp only at htr
      have hin : ∀ a, a ∈ tr4 → a = Action.StatusUpdate obj res →
          AttemptAction e (scaleOutMutation K e) a := by
        intro a ha hEq
        rw [htr] at ha
        rcases List.mem_append.mp ha with h | h
        · rw [hEq] at h
          simp at h
        · exact hP a h
      cases z with
      | some err =>
        simp only [SyncReplicas, getRuntime_eq e s s1 [] _ hfetch, hgt,
          SetupWorkers_eq e s1 s2 _ _ hs, CheckWorkersReady_eq e s2 s3 _ _ hr,
          List.nil_append, List.cons_append, if_true, hR] at hmem
        exact write_of_attempts e _ obj res (hin _ hmem rfl)
      | none =>
        rcases hp : e.getRuntime s4 with ⟨q, s5⟩
        cases q with
        | error err =>
          simp only [SyncReplicas, getRuntime_eq e s s1 [] _ hfetch, hgt,
            SetupWorkers_eq e s1 s2 _ _ hs, CheckWorkersReady_eq e s2 s3 _ _ hr,
            List.nil_append, List.cons_append, if_true, hR,
            getRuntime_eq e s4 s5 tr4 _ hp] at hmem
          rcases List.mem_append.mp hmem with h | h
          · exact write_of_attempts e _ obj res (hin _ h rfl)
          · simp at h
        | ok r3 =>
          simp only [SyncReplicas, getRuntime_eq e s s1 [] _ hfetch, hgt,
            SetupWorkers_eq e s1 s2 _ _ hs, CheckWorkersReady_eq e s2 s3 _ _ hr,
            List.nil_append, List.cons_append, if_true, hR,
            getRuntime_eq e s4 s5 tr4 _ hp, World.record] at hmem
          rcases List.mem_append.mp hmem with h | h
          · rcases List.mem_append.mp h with h1 | h1
            · exact write_of_attempts e _ obj res (hin _ h1 rfl)
            · simp at h1
          · simp at h

/-! ## The attempt that issued a write -/

theorem retryLoop_mem_added (fn : World σ → Option Error × World σ)
    (hfn : ∀ w, ∃ added, (fn w).2.trace = w.trace ++ added) :
    ∀ (n : Nat) (last : Option Error) (w : World σ) (a : Action),
      a ∈ (retryLoop fn n last w).2.trace →
      a ∈ w.trace ∨ ∃ wi ∈ attemptWorlds fn n w, ∃ added,
        (fn wi).2.trace = wi.trace ++ added ∧ a ∈ added := by
  intro n
  induction n with
  | zero =>
    intro last w a ha
    exact Or.inl (by simpa [retryLoop] using ha)
  | succ n ih =>
    intro last w a ha
    obtain ⟨added, htr⟩ := hfn w
    rcases hfw : fn w with ⟨r, w1⟩
    have hsplit : a ∈ w1.trace →
        a ∈ w.trace ∨ ∃ wi, wi = w ∧ ∃ added, (fn wi).2.trace = wi.trace ++ added ∧ a ∈ added := by
      intro h
      have h1 : w1.trace = w.trace ++ added := by rw [← htr, hfw]
      rw [h1] at h
      rcases List.mem_append.mp h with h2 | h2
      · exact Or.inl h2
      · exact Or.inr ⟨w, rfl, added, htr, h2⟩
    cases r with
    | none =>
      simp only [retryLoop, hfw] at ha
      rcases hsplit ha with h | ⟨wi, rfl, h⟩
      · exact Or.inl h
      · exact Or.inr ⟨wi, by simp [attemptWorlds, hfw], h⟩
    | some err =>
      by_cases hc : err.isConflict = true
      · simp only [retryLoop, hfw, hc, if_true] at ha
        rcases ih (some err) w1 a ha with h | ⟨wi, hwi, h⟩
        · rcases hsplit h with h1 | ⟨wj, rfl, h1⟩
          · exact Or.inl h1
          · exact Or.inr ⟨wj, by simp [attemptWorlds, hfw, hc], h1⟩
        · exact Or.inr ⟨wi, by simp [attemptWorlds, hfw, hc, hwi], h⟩
      · simp only [retryLoop, hfw, hc] at ha
        rcases hsplit ha with h | ⟨wi, rfl, h⟩
        · exact Or.inl h
        · exact Or.inr ⟨wi, by simp [attemptWorlds, hfw, hc], h⟩

theorem scaleOutAttempt_added_write (K : Constants) (e : AlluxioEngine σ) (w : World σ)
    (added : List Action) (obj : AlluxioRuntime) (res : Option Error)
    (htr : (scaleOutAttempt K e w).2.trace = w.trace ++ added)
    (hmem : Action.StatusUpdate obj res ∈ added) :
    ∃ r sb, e.getRuntime w.env = (Except.ok r, sb) ∧
      obj = (scaleOutMutation K e r sb).1 ∧
      (scaleOutAttempt K e w).2.trace
        = w.trace ++ [Action.getRuntime, Action.StatusUpdate obj res] := by
  rcases w with ⟨s, tr⟩
  rcases hf : e.getRuntime s with ⟨x, s1⟩
  cases x with
  | error err =>
    exfalso
    simp only [scaleOutAttempt, getRuntime_eq e s s1 tr _ hf] at htr
    have h := List.append_cancel_left htr
    rw [← h] at hmem
    simp at hmem
  | ok r =>
    by_cases hd : (scaleOutMutation K e r s1).1.Status = r.Status
    · exfalso
      rw [scaleOutAttempt_skip K e s s1 tr r hf hd] at htr
      have h := List.append_cancel_left htr
      rw [← h] at hmem
      simp at hmem
    · have hw := scaleOutAttempt_write K e s s1 tr r hf hd
      rw [hw] at htr
      have h := List.append_cancel_left htr
      rw [← h] at hmem
      simp only [List.mem_cons, List.mem_singleton, Action.StatusUpdate.injEq,
        List.not_mem_nil, or_false, reduceCtorEq, false_or] at hmem
      refine ⟨r, s1, rfl, hmem.1, ?_⟩
      rw [hw, hmem.1, hmem.2]

theorem scaleInAttempt_added_write (K : Constants) (e : AlluxioEngine σ)
    (replicas curReplicas : Int) (w : World σ)
    (added : List Action) (obj : AlluxioRuntime) (res : Option Error)
    (htr : (scaleInAttempt K e replicas curReplicas w).2.trace = w.trace ++ added)
    (hmem : Action.StatusUpdate obj res ∈ added) :
    ∃ r sb, e.getRuntime w.env = (Except.ok r, sb) ∧
      obj = (scaleInMutation K e replicas curReplicas r sb).1 ∧
      (scaleInAttempt K e replicas curReplicas w).2.trace
        = w.trace ++ [Action.getRuntime, Action.StatusUpdate obj res] := by
  rcases w with ⟨s, tr⟩
  rcases hf : e.getRuntime s with ⟨x, s1⟩
  cases x with
  | error err =>
    exfalso
    simp only [scaleInAttempt, getRuntime_eq e s s1 tr _ hf, World.record,
      List.append_assoc] at htr
    have h := List.append_cancel_left htr
    rw [← h] at hmem
    simp at hmem
  | ok r =>
    by_cases hd : (scaleInMutation K e replicas curReplicas r s1).1.Status = r.Status
    · exfalso
      rw [scaleInAttempt_skip K e replicas curReplicas s s1 tr r hf hd] at htr
      have h := List.append_cancel_left htr
      rw [← h] at hmem
      simp at hmem
    · have hw := scaleInAttempt_write K e replicas curReplicas s s1 tr r hf hd
      rw [hw] at htr
      have h := List.append_cancel_left htr
      rw [← h] at hmem
      simp only [List.mem_cons, List.mem_singleton, Action.StatusUpdate.injEq,
        List.not_mem_nil, or_false, reduceCtorEq, false_or] at hmem
      refine ⟨r, s1, rfl, hmem.1, ?_⟩
      rw [hw, hmem.1, hmem.2]

/-- Every status write of a scale-in cycle is the write of one attempt of its publication:
the attempt started in a world `w` of the retry loop, its fetch in `w` returned `r`, and it
wrote the scale-in mutation of `r`. -/
theorem SyncReplicas_scaleIn_write_attempt (K : Constants) (e : AlluxioEngine σ)
    (s s1 s2 : σ) (runtime : AlluxioRuntime) (achieved : Int)
    (hfetch : e.getRuntime s = (Except.ok runtime, s1))
    (hlt : runtime.Replicas < runtime.Status.CurrentWorkerNumberScheduled)
    (hdestroy : e.destroyWorkers runtime.Replicas s1 = (Except.ok achieved, s2))
    (obj : AlluxioRuntime) (res : Option Error)
    (hmem : Action.StatusUpdate obj res ∈ (SyncReplicas K e ⟨s, []⟩).2.trace) :
    ∃ w ∈ attemptWorlds (scaleInAttempt K e runtime.Replicas achieved) K.DefaultBackoffSteps
        ⟨s2, [Action.getRuntime, Action.LogInfo "Scaling in Alluxio workers",
          Action.destroyWorkers runtime.Replicas, scaleInEvent K runtime achieved]⟩,
      ∃ r sb, e.getRuntime w.env = (Except.ok r, sb) ∧
        obj = (scaleInMutation K e runtime.Replicas achieved r sb).1 ∧
        (scaleInAttempt K e runtime.Replicas achieved w).2.trace
          = w.trace ++ [Action.getRuntime, Action.StatusUpdate obj res] := by
  rw [SyncReplicas_scaleIn_eq K e s s1 s2 runtime achieved hfetch hlt hdestroy] at hmem
  have hfn : ∀ w, ∃ added,
      (scaleInAttempt K e runtime.Replicas achieved w).2.trace = w.trace ++ added := by
    intro w
    obtain ⟨added, h, -, -⟩ := scaleInAttempt_extends K e runtime.Replicas achieved w
    exact ⟨added, h⟩
  rcases retryLoop_mem_added _ hfn _ _ _ _ hmem with h | ⟨wi, hwi, added, htr, ha⟩
  · exfalso
    unfold scaleInEvent at h
    split at h <;> simp at h
  · exact ⟨wi, hwi, scaleInAttempt_added_write K e _ _ wi added obj res htr ha⟩

/-- Every status write of a scale-out cycle is the write of one attempt of its publication:
the attempt started in a world `w` of the retry loop, its fetch in `w` returned `r`, and it
wrote the scale-out mutation of `r`. -/
theorem SyncReplicas_scaleOut_write_attempt (K : Constants) (e : AlluxioEngine σ)
    (s s1 s2 s3 : σ) (runtime : AlluxioRuntime) (ready : Bool)
    (hfetch : e.getRuntime s = (Except.ok runtime, s1))
    (hgt : runtime.Replicas > runtime.Status.CurrentWorkerNumberScheduled)
    (hsetup : e.SetupWorkers s1 = (none, s2))
    (hready : e.CheckWorkersReady s2 = (Except.ok ready, s3))
    (obj : AlluxioRuntime) (res : Option Error)
    (hmem : Action.StatusUpdate obj res ∈ (SyncReplicas K e ⟨s, []⟩).2.trace) :
    ∃ w ∈ attemptWorlds (scaleOutAttempt K e) K.DefaultBackoffSteps
        ⟨s3, [Action.getRuntime, Action.SetupWorkers, Action.CheckWorkersReady]⟩,
      ∃ r sb, e.getRuntime w.env = (Except.ok r, sb) ∧
        obj = (scaleOutMutation K e r sb).1 ∧
        (scaleOutAttempt K e w).2.trace
          = w.trace ++ [Action.getRuntime, Action.StatusUpdate obj res] := by
  have hfn : ∀ w, ∃ added, (scaleOutAttempt K e w).2.trace = w.trace ++ added := by
    intro w
    obtain ⟨added, h, -, -⟩ := scaleOutAttempt_extends K e w
    exact ⟨added, h⟩
  have hloop : Action.StatusUpdate obj res
      ∈ (RetryOnConflict K.DefaultBackoffSteps (scaleOutAttempt K e)
          ⟨s3, [Action.getRuntime, Action.SetupWorkers, Action.CheckWorkersReady]⟩).2.trace := by
    rcases hR : RetryOnConflict K.DefaultBackoffSteps (scaleOutAttempt K e)
      ⟨s3, [Action.getRuntime, Action.SetupWorkers, Action.CheckWorkersReady]⟩
      with ⟨z, ⟨s4, tr4⟩⟩
    cases z with
    | some err =>
      simpa only [SyncReplicas, getRuntime_eq e s s1 [] _ hfetch, hgt,
        SetupWorkers_eq e s1 s2 _ _ hsetup, CheckWorkersReady_eq e s2 s3 _ _ hready,
        List.nil_append, List.cons_append, if_true, hR] using hmem
    | none =>
      rcases hp : e.getRuntime s4 with ⟨q, s5⟩
      cases q with
      | error err =>
        simp only [SyncReplicas, getRuntime_eq e s s1 [] _ hfetch, hgt,
          SetupWorkers_eq e s1 s2 _ _ hsetup, CheckWorkersReady_eq e s2 s3 _ _ hready,
          List.nil_append, List.cons_append, if_true, hR,
          getRuntime_eq e s4 s5 tr4 _ hp] at hmem
        rcases List.mem_append.mp hmem with h | h
        · exact h
        · simp at h
      | ok r3 =>
        simp only [SyncReplicas, getRuntime_eq e s s1 [] _ hfetch, hgt,
          SetupWorkers_eq e s1 s2 _ _ hsetup, CheckWorkersReady_eq e s2 s3 _ _ hready,
          List.nil_append, List.cons_append, if_true, hR,
          getRuntime_eq e s4 s5 tr4 _ hp, World.record] at hmem
        rcases List.mem_append.mp hmem with h | h
        · rcases List.mem_append.mp h with h1 | h1
          · exact h1
          · simp at h1
        · simp at h
  rcases retryLoop_mem_added _ hfn _ _ _ _ hloop with h | ⟨wi, hwi, added, htr, ha⟩
  · simp at h
  · exact ⟨wi, hwi, scaleOutAttempt_added_write K e wi added obj res htr ha⟩

/-! ## The claims -/

/-- C1. When the fetched runtime's desired replica count equals its current worker count, the
cycle consists of the fetch and one log line only: no provisioning, readiness check,
destruction, status write or event, the world is the one the fetch left, and the result is
nil. -/
theorem SyncReplicas_equal_is_noop (K : Constants) (e : AlluxioEngine σ) (s s1 : σ)
    (runtime : AlluxioRuntime)
    (hfetch : e.getRuntime s = (Except.ok runtime, s1))
    (heq : runtime.Replicas = runtime.Status.CurrentWorkerNumberScheduled) :
    SyncReplicas K e ⟨s, []⟩
      = (none, ⟨s1, [Action.getRuntime, Action.LogInfo "Nothing to do"]⟩) := by
  simp [SyncReplicas, getRuntime_eq e s s1 [] _ hfetch, heq, World.record]

/-- C1 at a scripted run: desired 3, current 3. -/
theorem SyncReplicas_equal_is_noop_witness :
    SyncReplicas sampleConstants scripted
        ⟨⟨[Except.ok (mkRuntime 7 3 3 false [])], none, Except.ok true, Except.ok 3, [], 0⟩, []⟩
      = (none, ⟨⟨[], none, Except.ok true, Except.ok 3, [], 0⟩,
          [Action.getRuntime, Action.LogInfo "Nothing to do"]⟩) :=
  SyncReplicas_equal_is_noop sampleConstants scripted _ _ (mkRuntime 7 3 3 false []) rfl rfl

/-- C2. In a scale-in cycle (desired below current, `destroyWorkers` returned `achieved`
without error, whether `achieved` equals the target or exceeds it), every status write carries
`DesiredWorkerNumberScheduled = target`, `CurrentWorkerNumberScheduled = achieved` and a
condition of type `RuntimeWorkerScaledIn` with status true; and once a write is accepted,
`SyncReplicas` returns nil. -/
theorem SyncReplicas_scaleIn_publishes (K : Constants) (e : AlluxioEngine σ) (s s1 s2 : σ)
    (runtime : AlluxioRuntime) (achieved : Int)
    (hfetch : e.getRuntime s = (Except.ok runtime, s1))
    (hlt : runtime.Replicas < runtime.Status.CurrentWorkerNumberScheduled)
    (hdestroy : e.destroyWorkers runtime.Replicas s1 = (Except.ok achieved, s2)) :
    (∀ obj res, Action.StatusUpdate obj res ∈ (SyncReplicas K e ⟨s, []⟩).2.trace →
      obj.Status.DesiredWorkerNumberScheduled = runtime.Replicas ∧
      obj.Status.CurrentWorkerNumberScheduled = achieved ∧
      ∃ c ∈ obj.Status.Conditions,
        c.type = K.RuntimeWorkerScaledIn ∧ c.status = ConditionStatus.ConditionTrue) ∧
    (∀ obj, Action.StatusUpdate obj none ∈ (SyncReplicas K e ⟨s, []⟩).2.trace →
      (SyncReplicas K e ⟨s, []⟩).1 = none) := by
  constructor
  · intro obj res hmem
    obtain ⟨r, sa, sb, -, rfl⟩ :=
      SyncReplicas_scaleIn_writes K e s s1 s2 runtime achieved hfetch hlt hdestroy obj res hmem
    obtain ⟨h1, h2, h3, -, -⟩ := scaleInMutation_workers K e runtime.Replicas achieved r sb
    exact ⟨h1, h2, h3⟩
  · intro obj hmem
    obtain ⟨added, htr, -, hres⟩ :=
      SyncReplicas_scaleIn_trace K e s s1 s2 runtime achieved hfetch hlt hdestroy
    rcases hres with h | h
    · exact h
    · exfalso
      rw [htr] at hmem
      rcases List.mem_append.mp hmem with h1 | h1
      · unfold scaleInEvent at h1
        split at h1 <;> simp at h1
      · exact h _ h1 obj rfl

/-- C2 at the spec's partial scale-in (current 5, desired 2, achieved 4): a write is accepted,
it carries desired 2 and current 4, and the cycle returns nil. -/
theorem SyncReplicas_scaleIn_publishes_witness :
    ∃ obj, Action.StatusUpdate obj none ∈ (SyncReplicas sampleConstants scripted
        ⟨partialScaleIn, []⟩).2.trace ∧
      (obj.Status.DesiredWorkerNumberScheduled = 2 ∧
        obj.Status.CurrentWorkerNumberScheduled = 4 ∧
        ∃ c ∈ obj.Status.Conditions,
          c.type = "WorkersScaledIn" ∧ c.status = ConditionStatus.ConditionTrue) ∧
      (SyncReplicas sampleConstants scripted ⟨partialScaleIn, []⟩).1 = none :=
  have hmem : Action.StatusUpdate
      (scaleInMutation sampleConstants scripted 2 4 (mkRuntime 1 2 5 false [])
        ⟨[], none, Except.ok true, Except.ok 4, [none], 100⟩).1 none
      ∈ (SyncReplicas sampleConstants scripted ⟨partialScaleIn, []⟩).2.trace := by decide
  have h := SyncReplicas_scaleIn_publishes sampleConstants scripted partialScaleIn
    ⟨[Except.ok (mkRuntime 1 2 5 false [])], none, Except.ok true, Except.ok 4, [none], 100⟩
    ⟨[Except.ok (mkRuntime 1 2 5 false [])], none, Except.ok true, Except.ok 4, [none], 100⟩
    (mkRuntime 1 2 5 false []) 4 rfl (by decide) rfl
  ⟨_, hmem, h.1 _ _ hmem, h.2 _ hmem⟩

/-- C3. In a scale-in cycle in which `destroyWorkers` returned `achieved` without error, the
cycle emits exactly one event: the warning event carrying (target, achieved) when
`achieved > target`, and otherwise the normal event carrying (achieved, desired), where the
desired count and the target are the same `runtime.Replicas()`. -/
theorem SyncReplicas_scaleIn_one_event (K : Constants) (e : AlluxioEngine σ) (s s1 s2 : σ)
    (runtime : AlluxioRuntime) (achieved : Int)
    (hfetch : e.getRuntime s = (Except.ok runtime, s1))
    (hlt : runtime.Replicas < runtime.Status.CurrentWorkerNumberScheduled)
    (hdestroy : e.destroyWorkers runtime.Replicas s1 = (Except.ok achieved, s2)) :
    (achieved > runtime.Replicas →
      eventsOf (SyncReplicas K e ⟨s, []⟩).2.trace
        = [Action.Eventf runtime EventType.EventTypeWarning K.RuntimeScaleInFailed
            "Alluxio workers are being used by some pods, can\x27t scale in (expected replicas: %v, current replicas: %v)"
            [runtime.Replicas, achieved]]) ∧
    (¬ achieved > runtime.Replicas →
      eventsOf (SyncReplicas K e ⟨s, []⟩).2.trace
        = [Action.Eventf runtime EventType.EventTypeNormal K.Succeed
            "Alluxio runtime scaled in. current replicas: %d, desired replicas: %d."
            [achieved, runtime.Replicas]]) := by
  obtain ⟨added, htr, hP, -⟩ :=
    SyncReplicas_scaleIn_trace K e s s1 s2 runtime achieved hfetch hlt hdestroy
  have hev : eventsOf (SyncReplicas K e ⟨s, []⟩).2.trace = [scaleInEvent K runtime achieved] := by
    rw [htr]
    have h0 := eventsOf_attempts e _ added hP
    unfold eventsOf at h0 ⊢
    rw [List.filter_append, h0]
    have h1 := scaleInEvent_isEvent K runtime achieved
    simp only [List.filter, h1, List.append_nil]
    rfl
  constructor
  · intro h
    rw [hev]
    simp [scaleInEvent, h]
  · intro h
    rw [hev]
    simp [scaleInEvent, h]

/-- C3 at the spec's two scale-in runs (current 5, desired 2): achieved 4 gives the single
warning event with (2, 4), achieved 2 gives the single normal event with (2, 2). -/
theorem SyncReplicas_scaleIn_one_event_witness :
    eventsOf (SyncReplicas sampleConstants scripted ⟨partialScaleIn, []⟩).2.trace
      = [Action.Eventf (mkRuntime 1 2 5 false []) EventType.EventTypeWarning
          "RuntimeScaleInFailed"
          "Alluxio workers are being used by some pods, can\x27t scale in (expected replicas: %v, current replicas: %v)"
          [2, 4]] ∧
    eventsOf (SyncReplicas sampleConstants scripted ⟨fullScaleIn, []⟩).2.trace
      = [Action.Eventf (mkRuntime 1 2 5 false []) EventType.EventTypeNormal "Succeed"
          "Alluxio runtime scaled in. current replicas: %d, desired replicas: %d."
          [2, 2]] :=
  ⟨(SyncReplicas_scaleIn_one_event sampleConstants scripted partialScaleIn
      ⟨[Except.ok (mkRuntime 1 2 5 false [])], none, Except.ok true, Except.ok 4, [none], 100⟩
      ⟨[Except.ok (mkRuntime 1 2 5 false [])], none, Except.ok true, Except.ok 4, [none], 100⟩
      (mkRuntime 1 2 5 false []) 4 rfl (by decide) rfl).1 (by decide),
    (SyncReplicas_scaleIn_one_event sampleConstants scripted fullScaleIn
      ⟨[Except.ok (mkRuntime 1 2 5 false [])], none, Except.ok true, Except.ok 2, [none], 100⟩
      ⟨[Except.ok (mkRuntime 1 2 5 false [])], none, Except.ok true, Except.ok 2, [none], 100⟩
      (mkRuntime 1 2 5 false []) 2 rfl (by decide) rfl).2 (by decide)⟩

/-- C4. A failing collaborator ends the cycle with its own error before anything is
published: when `SetupWorkers` fails, when `CheckWorkersReady` fails, or when
`destroyWorkers` fails, `SyncReplicas` returns that error and the trace of the cycle holds
only the calls made up to the failure (and a log line), hence no status write and no
event. -/
theorem SyncReplicas_collaborator_failure (K : Constants) (e : AlluxioEngine σ) (s s1 : σ)
    (runtime : AlluxioRuntime)
    (hfetch : e.getRuntime s = (Except.ok runtime, s1)) :
    (runtime.Replicas > runtime.Status.CurrentWorkerNumberScheduled →
      ∀ err s2, e.SetupWorkers s1 = (some err, s2) →
        SyncReplicas K e ⟨s, []⟩
          = (some err, ⟨s2, [Action.getRuntime, Action.SetupWorkers]⟩)) ∧
    (runtime.Replicas > runtime.Status.CurrentWorkerNumberScheduled →
      ∀ err s2 s3, e.SetupWorkers s1 = (none, s2) →
        e.CheckWorkersReady s2 = (Except.error err, s3) →
        SyncReplicas K e ⟨s, []⟩
          = (some err, ⟨s3, [Action.getRuntime, Action.SetupWorkers, Action.CheckWorkersReady,
              Action.LogError err "Check if the workers are ready"]⟩)) ∧
    (runtime.Replicas < runtime.Status.CurrentWorkerNumberScheduled →
      ∀ err s2, e.destroyWorkers runtime.Replicas s1 = (Except.error err, s2) →
        SyncReplicas K e ⟨s, []⟩
          = (some err, ⟨s2, [Action.getRuntime, Action.LogInfo "Scaling in Alluxio workers",
              Action.destroyWorkers runtime.Replicas]⟩)) := by
  refine ⟨?_, ?_, ?_⟩
  · intro hgt err s2 hsetup
    simp [SyncReplicas, getRuntime_eq e s s1 [] _ hfetch, hgt,
      SetupWorkers_eq e s1 s2 _ _ hsetup]
  · intro hgt err s2 s3 hsetup hready
    simp [SyncReplicas, getRuntime_eq e s s1 [] _ hfetch, hgt,
      SetupWorkers_eq e s1 s2 _ _ hsetup, CheckWorkersReady_eq e s2 s3 _ _ hready,
      World.record]
  · intro hlt err s2 hdestroy
    have hngt : ¬ runtime.Replicas > runtime.Status.CurrentWorkerNumberScheduled := by omega
    simp [SyncReplicas, getRuntime_eq e s s1 [] _ hfetch, hngt, hlt, World.record,
      destroyWorkers_eq e _ s1 s2 _ _ hdestroy]

/-- C4 at three scripted runs: provisioning fails, the readiness check fails, destruction
fails. Each run returns the collaborator's error, and its trace holds no write and no
event. -/
theorem SyncReplicas_collaborator_failure_witness :
    SyncReplicas sampleConstants scripted ⟨provisionFails, []⟩
      = (some ⟨false, "provision failed"⟩,
          ⟨(scripted.getRuntime provisionFails).2,
            [Action.getRuntime, Action.SetupWorkers]⟩) ∧
    SyncReplicas sampleConstants scripted ⟨readinessFails, []⟩
      = (some ⟨false, "workers not ready"⟩,
          ⟨(scripted.getRuntime readinessFails).2,
            [Action.getRuntime, Action.SetupWorkers, Action.CheckWorkersReady,
              Action.LogError ⟨false, "workers not ready"⟩ "Check if the workers are ready"]⟩) ∧
    SyncReplicas sampleConstants scripted ⟨destroyFails, []⟩
      = (some ⟨false, "destroy failed"⟩,
          ⟨(scripted.getRuntime destroyFails).2,
            [Action.getRuntime, Action.LogInfo "Scaling in Alluxio workers",
              Action.destroyWorkers 2]⟩) :=
  ⟨(SyncReplicas_collaborator_failure sampleConstants scripted provisionFails
      (scripted.getRuntime provisionFails).2 (mkRuntime 1 5 2 false []) rfl).1
        (by decide) ⟨false, "provision failed"⟩ (scripted.getRuntime provisionFails).2 rfl,
    (SyncReplicas_collaborator_failure sampleConstants scripted readinessFails
      (scripted.getRuntime readinessFails).2 (mkRuntime 1 5 2 false []) rfl).2.1
        (by decide) ⟨false, "workers not ready"⟩ (scripted.getRuntime readinessFails).2
        (scripted.getRuntime readinessFails).2 rfl rfl,
    (SyncReplicas_collaborator_failure sampleConstants scripted destroyFails
      (scripted.getRuntime destroyFails).2 (mkRuntime 1 2 5 false []) rfl).2.2
        (by decide) ⟨false, "destroy failed"⟩ (scripted.getRuntime destroyFails).2 rfl⟩

/-- C5. In a scale-in cycle every status write is issued by one attempt of the publication
loop: the attempt starts in a world `w` of that loop, its fetch in `w` returns the runtime
`r`, and the attempt adds to the trace that fetch followed by the write of `obj`. Against that
freshly fetched `r` the written `obj` has the same spec and resource version and: when
`r.Spec.Fuse.Global` is false, its fuse desired count is the target and it holds a condition
of type `RuntimeFusesScaledIn` with status true, next to the worker fields; when it is true,
its fuse desired count is that of `r` and (the two condition types being distinct) its
conditions of type `RuntimeFusesScaledIn` are exactly those of `r`. -/
theorem SyncReplicas_scaleIn_fuse_lockstep (K : Constants) (e : AlluxioEngine σ)
    (s s1 s2 : σ) (runtime : AlluxioRuntime) (achieved : Int)
    (hfetch : e.getRuntime s = (Except.ok runtime, s1))
    (hlt : runtime.Replicas < runtime.Status.CurrentWorkerNumberScheduled)
    (hdestroy : e.destroyWorkers runtime.Replicas s1 = (Except.ok achieved, s2)) :
    ∀ obj res, Action.StatusUpdate obj res ∈ (SyncReplicas K e ⟨s, []⟩).2.trace →
      ∃ w ∈ attemptWorlds (scaleInAttempt K e runtime.Replicas achieved)
          K.DefaultBackoffSteps
          ⟨s2, [Action.getRuntime, Action.LogInfo "Scaling in Alluxio workers",
            Action.destroyWorkers runtime.Replicas, scaleInEvent K runtime achieved]⟩,
        ∃ r sb, e.getRuntime w.env = (Except.ok r, sb) ∧
          (scaleInAttempt K e runtime.Replicas achieved w).2.trace
            = w.trace ++ [Action.getRuntime, Action.StatusUpdate obj res] ∧
          obj.Spec = r.Spec ∧ obj.ResourceVersion = r.ResourceVersion ∧
          (r.Spec.Fuse.Global = false →
            obj.Status.DesiredFuseNumberScheduled = runtime.Replicas ∧
            (∃ c ∈ obj.Status.Conditions,
              c.type = K.RuntimeFusesScaledIn ∧ c.status = ConditionStatus.ConditionTrue) ∧
            obj.Status.DesiredWorkerNumberScheduled = runtime.Replicas ∧
            obj.Status.CurrentWorkerNumberScheduled = achieved ∧
            (∃ c ∈ obj.Status.Conditions,
              c.type = K.RuntimeWorkerScaledIn ∧ c.status = ConditionStatus.ConditionTrue)) ∧
          (r.Spec.Fuse.Global = true →
            obj.Status.DesiredFuseNumberScheduled = r.Status.DesiredFuseNumberScheduled ∧
            (K.RuntimeWorkerScaledIn ≠ K.RuntimeFusesScaledIn →
              conditionsOfType K.RuntimeFusesScaledIn obj.Status.Conditions
                = conditionsOfType K.RuntimeFusesScaledIn r.Status.Conditions)) := by
  intro obj res hmem
  obtain ⟨w, hw, r, sb, hf, hobj, htr⟩ :=
    SyncReplicas_scaleIn_write_attempt K e s s1 s2 runtime achieved hfetch hlt hdestroy
      obj res hmem
  obtain ⟨h1, h2, h3, h4, h5⟩ := scaleInMutation_workers K e runtime.Replicas achieved r sb
  rw [← hobj] at h1 h2 h3 h4 h5
  refine ⟨w, hw, r, sb, hf, htr, h4, h5, ?_, ?_⟩
  · intro hG
    refine ⟨?_, ?_, h1, h2, h3⟩
    · rw [hobj, scaleInMutation_not_global K e _ _ r sb hG]
    · rw [hobj, scaleInMutation_not_global K e _ _ r sb hG]
      exact ⟨_, mem_UpdateRuntimeCondition _ _, rfl, rfl⟩
  · intro hG
    refine ⟨?_, ?_⟩
    · rw [hobj, scaleInMutation_global K e _ _ r sb hG]
    · intro hK
      rw [hobj, scaleInMutation_global K e _ _ r sb hG]
      exact conditionsOfType_UpdateRuntimeCondition _ _ _ hK

/-- C5 at two scripted scale-ins from 5 to 2 with one conflict each. Without global fuse the
accepted write sets the fuse desired count to 2 and holds the fuse condition. With global
fuse the second attempt fetches version 2 of the runtime (fuse desired count 9, fuse
condition stamped 60) and the accepted write keeps exactly those, not the count 3 and the
stamp 7 that the cycle and the first attempt had fetched. -/
theorem SyncReplicas_scaleIn_fuse_lockstep_witness :
    (∃ obj, Action.StatusUpdate obj none
        ∈ (SyncReplicas sampleConstants scripted ⟨conflictScaleIn, []⟩).2.trace ∧
      obj.ResourceVersion = 2 ∧
      obj.Spec.Fuse.Global = false ∧
      obj.Status.DesiredFuseNumberScheduled = 2 ∧
      conditionsOfType "FusesScaledIn" obj.Status.Conditions
        = [⟨"FusesScaledIn", "Fuses scaled in", "The fuses scaled in.",
            ConditionStatus.ConditionTrue, 103⟩] ∧
      ∃ w ∈ attemptWorlds (scaleInAttempt sampleConstants scripted 2 4) 4
          ⟨(scripted.getRuntime conflictScaleIn).2,
            [Action.getRuntime, Action.LogInfo "Scaling in Alluxio workers",
              Action.destroyWorkers 2,
              scaleInEvent sampleConstants (mkRuntime 1 2 5 false []) 4]⟩,
        ∃ r sb, scripted.getRuntime w.env = (Except.ok r, sb) ∧
          (scaleInAttempt sampleConstants scripted 2 4 w).2.trace
            = w.trace ++ [Action.getRuntime, Action.StatusUpdate obj none] ∧
          obj.Spec = r.Spec ∧ obj.ResourceVersion = r.ResourceVersion ∧
          (r.Spec.Fuse.Global = false → obj.Status.DesiredFuseNumberScheduled = 2)) ∧
    (∃ obj, Action.StatusUpdate obj none
        ∈ (SyncReplicas sampleConstants scripted ⟨globalFuseConflict, []⟩).2.trace ∧
      obj.ResourceVersion = 2 ∧
      obj.Spec.Fuse.Global = true ∧
      obj.Status.DesiredFuseNumberScheduled = 9 ∧
      conditionsOfType "FusesScaledIn" obj.Status.Conditions
        = [⟨"FusesScaledIn", "Fuses scaled in", "The fuses scaled in.",
            ConditionStatus.ConditionTrue, 60⟩] ∧
      ∃ w ∈ attemptWorlds (scaleInAttempt sampleConstants scripted 2 2) 4
          ⟨(scripted.getRuntime globalFuseConflict).2,
            [Action.getRuntime, Action.LogInfo "Scaling in Alluxio workers",
              Action.destroyWorkers 2, scaleInEvent sampleConstants globalFuseRuntime 2]⟩,
        ∃ r sb, scripted.getRuntime w.env = (Except.ok r, sb) ∧
          (scaleInAttempt sampleConstants scripted 2 2 w).2.trace
            = w.trace ++ [Action.getRuntime, Action.StatusUpdate obj none] ∧
          obj.Spec = r.Spec ∧ obj.ResourceVersion = r.ResourceVersion ∧
          (r.Spec.Fuse.Global = true →
            obj.Status.DesiredFuseNumberScheduled = r.Status.DesiredFuseNumberScheduled ∧
            conditionsOfType "FusesScaledIn" obj.Status.Conditions
              = conditionsOfType "FusesScaledIn" r.Status.Conditions)) := by
  have hmem1 : Action.StatusUpdate
      ⟨2, ⟨2, ⟨false⟩⟩, ⟨2, 4, 2, 0,
        [workersReady,
          ⟨"WorkersScaledIn", "Workers scaled in", "The workers scaled in.",
            ConditionStatus.ConditionTrue, 102⟩,
          ⟨"FusesScaledIn", "Fuses scaled in", "The fuses scaled in.",
            ConditionStatus.ConditionTrue, 103⟩]⟩⟩ none
      ∈ (SyncReplicas sampleConstants scripted ⟨conflictScaleIn, []⟩).2.trace := by decide
  have hmem2 : Action.StatusUpdate
      ⟨2, ⟨2, ⟨true⟩⟩, ⟨2, 2, 9, 3,
        [⟨"FusesScaledIn", "Fuses scaled in", "The fuses scaled in.",
            ConditionStatus.ConditionTrue, 60⟩,
          ⟨"WorkersScaledIn", "Workers scaled in", "The workers scaled in.",
            ConditionStatus.ConditionTrue, 101⟩]⟩⟩ none
      ∈ (SyncReplicas sampleConstants scripted ⟨globalFuseConflict, []⟩).2.trace := by decide
  obtain ⟨w1, hw1, r1, sb1, hf1, htr1, hs1, hv1, hGf1, -⟩ :=
    SyncReplicas_scaleIn_fuse_lockstep sampleConstants scripted conflictScaleIn
      (scripted.getRuntime conflictScaleIn).2 (scripted.getRuntime conflictScaleIn).2
      (mkRuntime 1 2 5 false []) 4 rfl (by decide) rfl _ _ hmem1
  obtain ⟨w2, hw2, r2, sb2, hf2, htr2, hs2, hv2, -, hGt2⟩ :=
    SyncReplicas_scaleIn_fuse_lockstep sampleConstants scripted globalFuseConflict
      (scripted.getRuntime globalFuseConflict).2 (scripted.getRuntime globalFuseConflict).2
      globalFuseRuntime 2 rfl (by decide) rfl _ _ hmem2
  refine ⟨⟨_, hmem1, rfl, rfl, rfl, by decide, w1, hw1, r1, sb1, hf1, htr1, hs1, hv1,
      fun hG => (hGf1 hG).1⟩,
    ⟨_, hmem2, rfl, rfl, rfl, by decide, w2, hw2, r2, sb2, hf2, htr2, hs2, hv2,
      fun hG => ⟨(hGt2 hG).1, (hGt2 hG).2 (by decide)⟩⟩⟩

/-- C6, as the code behaves. In a scale-out cycle every status write holds a condition with
status true whose type is the constant `RuntimeWorkersScaledOutReason` (line 58 passes the
reason constant as the condition type); and whenever that constant differs from the condition
type `RuntimeWorkerScaledOut`, the conditions of type `RuntimeWorkerScaledOut` in the written
status are exactly those of the freshly fetched status: none is added, none is replaced. -/
theorem SyncReplicas_scaleOut_condition_type (K : Constants) (e : AlluxioEngine σ)
    (s s1 : σ) (runtime : AlluxioRuntime)
    (hfetch : e.getRuntime s = (Except.ok runtime, s1))
    (hgt : runtime.Replicas > runtime.Status.CurrentWorkerNumberScheduled) :
    ∀ obj res, Action.StatusUpdate obj res ∈ (SyncReplicas K e ⟨s, []⟩).2.trace →
      (∃ c ∈ obj.Status.Conditions,
        c.type = K.RuntimeWorkersScaledOutReason ∧
          c.status = ConditionStatus.ConditionTrue) ∧
      ∃ r sa sb, e.getRuntime sa = (Except.ok r, sb) ∧
        (K.RuntimeWorkersScaledOutReason ≠ K.RuntimeWorkerScaledOut →
          conditionsOfType K.RuntimeWorkerScaledOut obj.Status.Conditions
            = conditionsOfType K.RuntimeWorkerScaledOut r.Status.Conditions) := by
  intro obj res hmem
  obtain ⟨r, sa, sb, hf, rfl⟩ :=
    SyncReplicas_scaleOut_writes K e s s1 runtime hfetch hgt obj res hmem
  rw [scaleOutMutation_eq]
  refine ⟨⟨_, mem_UpdateRuntimeCondition _ _, rfl, rfl⟩, r, sa, sb, hf, ?_⟩
  intro hK
  exact conditionsOfType_UpdateRuntimeCondition _ _ _ hK

/-- C6 at the spec's scale-out (current 2, desired 5, every collaborator succeeds): the cycle
returns nil, its accepted write publishes the single condition of type
`"Workers scaled out"`, and the published conditions hold no condition of type
`"WorkersScaledOut"`. -/
theorem SyncReplicas_scaleOut_condition_type_witness :
    (SyncReplicas sampleConstants scripted ⟨scaleOutRun, []⟩).1 = none ∧
    ∃ obj, Action.StatusUpdate obj none
        ∈ (SyncReplicas sampleConstants scripted ⟨scaleOutRun, []⟩).2.trace ∧
      obj.Status.Conditions
        = [⟨"Workers scaled out", "Workers scaled out", "The workers are scale out.",
            ConditionStatus.ConditionTrue, 100⟩] ∧
      conditionsOfType "WorkersScaledOut" obj.Status.Conditions = [] ∧
      ∃ c ∈ obj.Status.Conditions,
        c.type = "Workers scaled out" ∧ c.status = ConditionStatus.ConditionTrue :=
  have hmem : Action.StatusUpdate
      (scaleOutMutation sampleConstants scripted (mkRuntime 1 5 2 false [])
        (scripted.getRuntime (scripted.getRuntime scaleOutRun).2).2).1 none
      ∈ (SyncReplicas sampleConstants scripted ⟨scaleOutRun, []⟩).2.trace := by decide
  have h := SyncReplicas_scaleOut_condition_type sampleConstants scripted scaleOutRun
    (scripted.getRuntime scaleOutRun).2 (mkRuntime 1 5 2 false []) rfl (by decide) _ _ hmem
  ⟨rfl, _, hmem, rfl, by decide, h.1⟩

/-- C7 fails as stated: with current 5 and desired 2 (a scale-in), when `destroyWorkers`
returns 7 the cycle returns nil and its accepted write publishes
`CurrentWorkerNumberScheduled = 7`, above the count 5 observed at the start of the cycle. -/
theorem SyncReplicas_scaleIn_current_above_observed :
    (scripted.getRuntime overReportedScaleIn).1 = Except.ok (mkRuntime 1 2 5 false []) ∧
    (mkRuntime 1 2 5 false []).Replicas
      < (mkRuntime 1 2 5 false []).Status.CurrentWorkerNumberScheduled ∧
    (SyncReplicas sampleConstants scripted ⟨overReportedScaleIn, []⟩).1 = none ∧
    ∃ obj, Action.StatusUpdate obj none
        ∈ (SyncReplicas sampleConstants scripted ⟨overReportedScaleIn, []⟩).2.trace ∧
      obj.Status.CurrentWorkerNumberScheduled = 7 ∧
      ¬ obj.Status.CurrentWorkerNumberScheduled
        ≤ (mkRuntime 1 2 5 false []).Status.CurrentWorkerNumberScheduled := by
  refine ⟨rfl, by decide, rfl, ?_⟩
  refine ⟨(scaleInMutation sampleConstants scripted 2 7 (mkRuntime 1 2 5 false [])
    ⟨[], none, Except.ok true, Except.ok 7, [none], 100⟩).1, by decide, rfl, by decide⟩

/-- C7, amended. In a scale-in cycle every status write publishes as
`CurrentWorkerNumberScheduled` exactly the count `destroyWorkers` returned; so it stays within
the count observed at the start of the cycle whenever the returned count does, and it exceeds
the target whenever the returned count does. -/
theorem SyncReplicas_scaleIn_current_is_achieved (K : Constants) (e : AlluxioEngine σ)
    (s s1 s2 : σ) (runtime : AlluxioRuntime) (achieved : Int)
    (hfetch : e.getRuntime s = (Except.ok runtime, s1))
    (hlt : runtime.Replicas < runtime.Status.CurrentWorkerNumberScheduled)
    (hdestroy : e.destroyWorkers runtime.Replicas s1 = (Except.ok achieved, s2)) :
    ∀ obj res, Action.StatusUpdate obj res ∈ (SyncReplicas K e ⟨s, []⟩).2.trace →
      obj.Status.CurrentWorkerNumberScheduled = achieved ∧
      (achieved ≤ runtime.Status.CurrentWorkerNumberScheduled →
        obj.Status.CurrentWorkerNumberScheduled ≤ runtime.Status.CurrentWorkerNumberScheduled) ∧
      (runtime.Replicas < achieved →
        runtime.Replicas < obj.Status.CurrentWorkerNumberScheduled) := by
  intro obj res hmem
  obtain ⟨r, sa, sb, -, rfl⟩ :=
    SyncReplicas_scaleIn_writes K e s s1 s2 runtime achieved hfetch hlt hdestroy obj res hmem
  obtain ⟨-, h2, -, -, -⟩ := scaleInMutation_workers K e runtime.Replicas achieved r sb
  rw [h2]
  exact ⟨rfl, fun h => h, fun h => h⟩

/-- C7, amended, at the spec's partial scale-in (current 5, desired 2, achieved 4): the
accepted write publishes 4, which is within 5 and above 2. -/
theorem SyncReplicas_scaleIn_current_is_achieved_witness :
    ∃ obj, Action.StatusUpdate obj none
        ∈ (SyncReplicas sampleConstants scripted ⟨partialScaleIn, []⟩).2.trace ∧
      obj.Status.CurrentWorkerNumberScheduled = 4 ∧
      obj.Status.CurrentWorkerNumberScheduled ≤ 5 ∧
      2 < obj.Status.CurrentWorkerNumberScheduled :=
  have hmem : Action.StatusUpdate
      (scaleInMutation sampleConstants scripted 2 4 (mkRuntime 1 2 5 false [])
        ⟨[], none, Except.ok true, Except.ok 4, [none], 100⟩).1 none
      ∈ (SyncReplicas sampleConstants scripted ⟨partialScaleIn, []⟩).2.trace := by decide
  have h := SyncReplicas_scaleIn_current_is_achieved sampleConstants scripted partialScaleIn
    ⟨[Except.ok (mkRuntime 1 2 5 false [])], none, Except.ok true, Except.ok 4, [none], 100⟩
    ⟨[Except.ok (mkRuntime 1 2 5 false [])], none, Except.ok true, Except.ok 4, [none], 100⟩
    (mkRuntime 1 2 5 false []) 4 rfl (by decide) rfl _ _ hmem
  ⟨_, hmem, h.1, h.2.1 (by decide), h.2.2 (by decide)⟩

/-- C8 fails as stated: on the scale-out path with four attempts allowed, the write of
attempt 1 is rejected with a conflict and the write of attempt 2 is accepted, yet the fetch
that follows the publication fails, so `SyncReplicas` returns that error instead of nil and
the cycle emits no event. -/
theorem SyncReplicas_conflict_retry_without_event :
    writesOf (SyncReplicas sampleConstants scripted ⟨conflictScaleOutFetchFails, []⟩).2.trace
      = [Action.StatusUpdate
          (scaleOutMutation sampleConstants scripted (mkRuntime 1 5 2 false [])
            (scripted.getRuntime (scripted.getRuntime conflictScaleOutFetchFails).2).2).1
          (some ⟨true, "conflict"⟩),
        Action.StatusUpdate
          ⟨2, ⟨5, ⟨false⟩⟩, ⟨0, 2, 0, 0, [workersReady,
            ⟨"Workers scaled out", "Workers scaled out", "The workers are scale out.",
              ConditionStatus.ConditionTrue, 101⟩]⟩⟩
          none] ∧
    (SyncReplicas sampleConstants scripted ⟨conflictScaleOutFetchFails, []⟩).1
      = some ⟨false, "fetch failed"⟩ ∧
    eventsOf (SyncReplicas sampleConstants scripted ⟨conflictScaleOutFetchFails, []⟩).2.trace
      = [] := by
  refine ⟨by decide, rfl, by decide⟩

/-- C8, amended. With a budget of at least two attempts, when the write of attempt 1 is
rejected with a conflict and the write of attempt 2 is accepted: attempt 2 begins with a new
fetch and writes the mutation of the runtime that fetch returned. On the scale-in path
`SyncReplicas` then returns nil and the cycle holds the single scale-in event. On the
scale-out path the outcome follows the fetch made after the publication: if it succeeds,
`SyncReplicas` returns nil and emits the single scale-out event; if it fails, `SyncReplicas`
returns that error and no event is emitted. -/
theorem SyncReplicas_conflict_retry (K : Constants) (e : AlluxioEngine σ)
    (hsteps : 2 ≤ K.DefaultBackoffSteps) :
    (∀ (s s1 s2 s3 s4 s5 s6 : σ) (runtime r1 r2 : AlluxioRuntime) (achieved : Int)
        (cerr : Error),
      e.getRuntime s = (Except.ok runtime, s1) →
      runtime.Replicas < runtime.Status.CurrentWorkerNumberScheduled →
      e.destroyWorkers runtime.Replicas s1 = (Except.ok achieved, s2) →
      e.getRuntime s2 = (Except.ok r1, s3) →
      (scaleInMutation K e runtime.Replicas achieved r1 s3).1.Status ≠ r1.Status →
      e.StatusUpdate (scaleInMutation K e runtime.Replicas achieved r1 s3).1
          (scaleInMutation K e runtime.Replicas achieved r1 s3).2 = (some cerr, s4) →
      cerr.isConflict = true →
      e.getRuntime s4 = (Except.ok r2, s5) →
      (scaleInMutation K e runtime.Replicas achieved r2 s5).1.Status ≠ r2.Status →
      e.StatusUpdate (scaleInMutation K e runtime.Replicas achieved r2 s5).1
          (scaleInMutation K e runtime.Replicas achieved r2 s5).2 = (none, s6) →
      SyncReplicas K e ⟨s, []⟩
        = (none, ⟨s6, [Action.getRuntime, Action.LogInfo "Scaling in Alluxio workers",
            Action.destroyWorkers runtime.Replicas, scaleInEvent K runtime achieved,
            Action.getRuntime,
            Action.StatusUpdate (scaleInMutation K e runtime.Replicas achieved r1 s3).1
              (some cerr),
            Action.getRuntime,
            Action.StatusUpdate (scaleInMutation K e runtime.Replicas achieved r2 s5).1
              none]⟩)) ∧
    (∀ (s s1 s2 s3 s4 s5 s6 s7 s8 : σ) (runtime r1 r2 : AlluxioRuntime) (ready : Bool)
        (cerr : Error) (post : Except Error AlluxioRuntime),
      e.getRuntime s = (Except.ok runtime, s1) →
      runtime.Replicas > runtime.Status.CurrentWorkerNumberScheduled →
      e.SetupWorkers s1 = (none, s2) →
      e.CheckWorkersReady s2 = (Except.ok ready, s3) →
      e.getRuntime s3 = (Except.ok r1, s4) →
      (scaleOutMutation K e r1 s4).1.Status ≠ r1.Status →
      e.StatusUpdate (scaleOutMutation K e r1 s4).1 (scaleOutMutation K e r1 s4).2
          = (some cerr, s5) →
      cerr.isConflict = true →
      e.getRuntime s5 = (Except.ok r2, s6) →
      (scaleOutMutation K e r2 s6).1.Status ≠ r2.Status →
      e.StatusUpdate (scaleOutMutation K e r2 s6).1 (scaleOutMutation K e r2 s6).2
          = (none, s7) →
      e.getRuntime s7 = (post, s8) →
      SyncReplicas K e ⟨s, []⟩
        = match post with
          | Except.ok r3 =>
            (none, ⟨s8, [Action.getRuntime, Action.SetupWorkers, Action.CheckWorkersReady,
              Action.getRuntime,
              Action.StatusUpdate (scaleOutMutation K e r1 s4).1 (some cerr),
              Action.getRuntime,
              Action.StatusUpdate (scaleOutMutation K e r2 s6).1 none,
              Action.getRuntime,
              Action.Eventf r3 EventType.EventTypeNormal K.Succeed
                "Alluxio runtime scaled out. current replicas: %d, desired replicas: %d."
                [r3.Status.CurrentWorkerNumberScheduled,
                  r3.Status.DesiredWorkerNumberScheduled]]⟩)
          | Except.error err =>
            (some err, ⟨s8, [Action.getRuntime, Action.SetupWorkers,
              Action.CheckWorkersReady,
              Action.getRuntime,
              Action.StatusUpdate (scaleOutMutation K e r1 s4).1 (some cerr),
              Action.getRuntime,
              Action.StatusUpdate (scaleOutMutation K e r2 s6).1 none,
              Action.getRuntime]⟩)) := by
  constructor
  · intro s s1 s2 s3 s4 s5 s6 runtime r1 r2 achieved cerr hfetch hlt hdestroy hf1 hne1 hw1 hc
      hf2 hne2 hw2
    rw [SyncReplicas_scaleIn_eq K e s s1 s2 runtime achieved hfetch hlt hdestroy]
    have h1 := scaleInAttempt_write K e runtime.Replicas achieved s2 s3
      [Action.getRuntime, Action.LogInfo "Scaling in Alluxio workers",
        Action.destroyWorkers runtime.Replicas, scaleInEvent K runtime achieved] r1 hf1 hne1
    rw [hw1] at h1
    have h2 := scaleInAttempt_write K e runtime.Replicas achieved s4 s5
      ([Action.getRuntime, Action.LogInfo "Scaling in Alluxio workers",
        Action.destroyWorkers runtime.Replicas, scaleInEvent K runtime achieved] ++
        [Action.getRuntime,
          Action.StatusUpdate (scaleInMutation K e runtime.Replicas achieved r1 s3).1
            (some cerr)]) r2 hf2 hne2
    rw [hw2] at h2
    rw [RetryOnConflict_second_attempt _ _ hsteps _ _ _ cerr h1 hc h2]
    simp
  · intro s s1 s2 s3 s4 s5 s6 s7 s8 runtime r1 r2 ready cerr post hfetch hgt hsetup hready
      hf1 hne1 hw1 hc hf2 hne2 hw2 hpost
    have h1 := scaleOutAttempt_write K e s3 s4
      [Action.getRuntime, Action.SetupWorkers, Action.CheckWorkersReady] r1 hf1 hne1
    rw [hw1] at h1
    have h2 := scaleOutAttempt_write K e s5 s6
      ([Action.getRuntime, Action.SetupWorkers, Action.CheckWorkersReady] ++
        [Action.getRuntime, Action.StatusUpdate (scaleOutMutation K e r1 s4).1 (some cerr)])
      r2 hf2 hne2
    rw [hw2] at h2
    have hR := RetryOnConflict_second_attempt _ _ hsteps _ _ _ cerr h1 hc h2
    simp only [SyncReplicas, getRuntime_eq e s s1 [] _ hfetch, hgt,
      SetupWorkers_eq e s1 s2 _ _ hsetup, CheckWorkersReady_eq e s2 s3 _ _ hready,
      List.nil_append, List.cons_append, if_true] at hR ⊢
    rw [hR]
    simp only [getRuntime_eq e s7 s8 _ _ hpost]
    cases post with
    | error err => simp
    | ok r3 => simp [World.record]

/-- C8, amended, at the two scripted runs with one conflict: each returns nil, writes in its
second attempt the mutation of the version-2 runtime fetched in that attempt, and holds
exactly one event. -/
theorem SyncReplicas_conflict_retry_witness :
    ((SyncReplicas sampleConstants scripted ⟨conflictScaleIn, []⟩).1 = none ∧
      writesOf (SyncReplicas sampleConstants scripted ⟨conflictScaleIn, []⟩).2.trace
        = [Action.StatusUpdate
            ⟨1, ⟨2, ⟨false⟩⟩, ⟨2, 4, 2, 0,
              [⟨"WorkersScaledIn", "Workers scaled in", "The workers scaled in.",
                  ConditionStatus.ConditionTrue, 100⟩,
                ⟨"FusesScaledIn", "Fuses scaled in", "The fuses scaled in.",
                  ConditionStatus.ConditionTrue, 101⟩]⟩⟩
            (some ⟨true, "conflict"⟩),
          Action.StatusUpdate
            ⟨2, ⟨2, ⟨false⟩⟩, ⟨2, 4, 2, 0,
              [workersReady,
                ⟨"WorkersScaledIn", "Workers scaled in", "The workers scaled in.",
                  ConditionStatus.ConditionTrue, 102⟩,
                ⟨"FusesScaledIn", "Fuses scaled in", "The fuses scaled in.",
                  ConditionStatus.ConditionTrue, 103⟩]⟩⟩
            none] ∧
      eventsOf (SyncReplicas sampleConstants scripted ⟨conflictScaleIn, []⟩).2.trace
        = [scaleInEvent sampleConstants (mkRuntime 1 2 5 false []) 4]) ∧
    ((SyncReplicas sampleConstants scripted ⟨conflictScaleOut, []⟩).1 = none ∧
      writesOf (SyncReplicas sampleConstants scripted ⟨conflictScaleOut, []⟩).2.trace
        = [Action.StatusUpdate
            ⟨1, ⟨5, ⟨false⟩⟩, ⟨0, 2, 0, 0,
              [⟨"Workers scaled out", "Workers scaled out", "The workers are scale out.",
                  ConditionStatus.ConditionTrue, 100⟩]⟩⟩
            (some ⟨true, "conflict"⟩),
          Action.StatusUpdate
            ⟨2, ⟨5, ⟨false⟩⟩, ⟨0, 2, 0, 0,
              [workersReady,
                ⟨"Workers scaled out", "Workers scaled out", "The workers are scale out.",
                  ConditionStatus.ConditionTrue, 101⟩]⟩⟩
            none] ∧
      eventsOf (SyncReplicas sampleConstants scripted ⟨conflictScaleOut, []⟩).2.trace
        = [Action.Eventf (mkRuntime 3 5 5 false [workersReady]) EventType.EventTypeNormal
            "Succeed"
            "Alluxio runtime scaled out. current replicas: %d, desired replicas: %d."
            [5, 0]]) := by
  have hin := (SyncReplicas_conflict_retry sampleConstants scripted (by decide)).1
    conflictScaleIn _ _ _ _ _ _ (mkRuntime 1 2 5 false []) (mkRuntime 1 2 5 false [])
    (mkRuntime 2 2 5 false [workersReady]) 4 ⟨true, "conflict"⟩
    rfl (by decide) rfl rfl (by decide) rfl rfl rfl (by decide) rfl
  have hout := (SyncReplicas_conflict_retry sampleConstants scripted (by decide)).2
    conflictScaleOut _ _ _ _ _ _ _ _ (mkRuntime 1 5 2 false []) (mkRuntime 1 5 2 false [])
    (mkRuntime 2 5 2 false [workersReady]) true ⟨true, "conflict"⟩
    (Except.ok (mkRuntime 3 5 5 false [workersReady]))
    rfl (by decide) rfl rfl rfl (by decide) rfl rfl rfl (by decide) rfl rfl
  constructor
  · rw [hin]
    exact ⟨rfl, by decide, by decide⟩
  · rw [hout]
    exact ⟨rfl, by decide, by decide⟩

/-- C9. In an attempt of either publication whose fetch returned `r`: when the mutated status
differs from `r.Status`, the attempt issues the write of the mutated runtime and returns the
outcome of that write; when the mutated status equals `r.Status`, the attempt returns nil and
adds nothing but the fetch to the trace. So a write is issued exactly when the two differ. -/
theorem attempt_writes_iff_changed (K : Constants) (e : AlluxioEngine σ) (s s1 : σ)
    (tr : List Action) (r : AlluxioRuntime) (replicas curReplicas : Int)
    (hf : e.getRuntime s = (Except.ok r, s1)) :
    ((scaleOutMutation K e r s1).1.Status ≠ r.Status →
      scaleOutAttempt K e ⟨s, tr⟩
        = ((e.StatusUpdate (scaleOutMutation K e r s1).1 (scaleOutMutation K e r s1).2).1,
            ⟨(e.StatusUpdate (scaleOutMutation K e r s1).1 (scaleOutMutation K e r s1).2).2,
              tr ++ [Action.getRuntime, Action.StatusUpdate (scaleOutMutation K e r s1).1
                (e.StatusUpdate (scaleOutMutation K e r s1).1
                  (scaleOutMutation K e r s1).2).1]⟩)) ∧
    ((scaleOutMutation K e r s1).1.Status = r.Status →
      scaleOutAttempt K e ⟨s, tr⟩
        = (none, ⟨(scaleOutMutation K e r s1).2, tr ++ [Action.getRuntime]⟩)) ∧
    ((scaleInMutation K e replicas curReplicas r s1).1.Status ≠ r.Status →
      scaleInAttempt K e replicas curReplicas ⟨s, tr⟩
        = ((e.StatusUpdate (scaleInMutation K e replicas curReplicas r s1).1
              (scaleInMutation K e replicas curReplicas r s1).2).1,
            ⟨(e.StatusUpdate (scaleInMutation K e replicas curReplicas r s1).1
                (scaleInMutation K e replicas curReplicas r s1).2).2,
              tr ++ [Action.getRuntime,
                Action.StatusUpdate (scaleInMutation K e replicas curReplicas r s1).1
                  (e.StatusUpdate (scaleInMutation K e replicas curReplicas r s1).1
                    (scaleInMutation K e replicas curReplicas r s1).2).1]⟩)) ∧
    ((scaleInMutation K e replicas curReplicas r s1).1.Status = r.Status →
      scaleInAttempt K e replicas curReplicas ⟨s, tr⟩
        = (none, ⟨(scaleInMutation K e replicas curReplicas r s1).2,
            tr ++ [Action.getRuntime]⟩)) ∧
    (writesOf (scaleOutAttempt K e ⟨s, []⟩).2.trace ≠ [] ↔
      (scaleOutMutation K e r s1).1.Status ≠ r.Status) ∧
    (writesOf (scaleInAttempt K e replicas curReplicas ⟨s, []⟩).2.trace ≠ [] ↔
      (scaleInMutation K e replicas curReplicas r s1).1.Status ≠ r.Status) := by
  refine ⟨scaleOutAttempt_write K e s s1 tr r hf, scaleOutAttempt_skip K e s s1 tr r hf,
    scaleInAttempt_write K e replicas curReplicas s s1 tr r hf,
    scaleInAttempt_skip K e replicas curReplicas s s1 tr r hf, ?_, ?_⟩
  · by_cases h : (scaleOutMutation K e r s1).1.Status = r.Status
    · rw [scaleOutAttempt_skip K e s s1 [] r hf h]
      simp [writesOf, Action.isStatusWrite, h]
    · rw [scaleOutAttempt_write K e s s1 [] r hf h]
      simp [writesOf, Action.isStatusWrite, h]
  · by_cases h : (scaleInMutation K e replicas curReplicas r s1).1.Status = r.Status
    · rw [scaleInAttempt_skip K e replicas curReplicas s s1 [] r hf h]
      simp [writesOf, Action.isStatusWrite, h]
    · rw [scaleInAttempt_write K e replicas curReplicas s s1 [] r hf h]
      simp [writesOf, Action.isStatusWrite, h]

/-- C9 at four scripted attempts: on either path an attempt whose mutation changes the
fetched status issues one write, and an attempt whose mutation leaves it unchanged returns
nil with the fetch as its only action. -/
theorem attempt_writes_iff_changed_witness :
    (scaleOutAttempt sampleConstants scripted ⟨unsettled, []⟩).1 = none ∧
    (scaleOutAttempt sampleConstants scripted ⟨unsettled, []⟩).2.trace
      = [Action.getRuntime,
          Action.StatusUpdate
            ⟨1, ⟨5, ⟨false⟩⟩, ⟨0, 2, 0, 0,
              [⟨"Workers scaled out", "Workers scaled out", "The workers are scale out.",
                ConditionStatus.ConditionTrue, 100⟩]⟩⟩ none] ∧
    scaleOutAttempt sampleConstants scripted ⟨settledScaleOut, []⟩
      = (none, ⟨(scripted.Now (scripted.getRuntime settledScaleOut).2).2,
          [Action.getRuntime]⟩) ∧
    (scaleInAttempt sampleConstants scripted 2 4 ⟨unsettled, []⟩).1 = none ∧
    (scaleInAttempt sampleConstants scripted 2 4 ⟨unsettled, []⟩).2.trace
      = [Action.getRuntime,
          Action.StatusUpdate
            ⟨1, ⟨5, ⟨false⟩⟩, ⟨2, 4, 2, 0,
              [⟨"WorkersScaledIn", "Workers scaled in", "The workers scaled in.",
                  ConditionStatus.ConditionTrue, 100⟩,
                ⟨"FusesScaledIn", "Fuses scaled in", "The fuses scaled in.",
                  ConditionStatus.ConditionTrue, 101⟩]⟩⟩ none] ∧
    scaleInAttempt sampleConstants scripted 2 4 ⟨settledScaleIn, []⟩
      = (none, ⟨(scripted.Now (scripted.getRuntime settledScaleIn).2).2,
          [Action.getRuntime]⟩) := by
  have hA := (attempt_writes_iff_changed sampleConstants scripted unsettled
    (scripted.getRuntime unsettled).2 [] (mkRuntime 1 5 2 false []) 2 4 rfl).1 (by decide)
  have hB := (attempt_writes_iff_changed sampleConstants scripted settledScaleOut
    (scripted.getRuntime settledScaleOut).2 [] _ 2 4 rfl).2.1 (by decide)
  have hC := (attempt_writes_iff_changed sampleConstants scripted unsettled
    (scripted.getRuntime unsettled).2 [] (mkRuntime 1 5 2 false []) 2 4 rfl).2.2.1
    (by decide)
  have hD := (attempt_writes_iff_changed sampleConstants scripted settledScaleIn
    (scripted.getRuntime settledScaleIn).2 [] settledRuntime 2 4 rfl).2.2.2.1 (by decide)
  refine ⟨?_, ?_, hB, ?_, ?_, hD⟩
  · rw [hA]
    rfl
  · rw [hA]
    rfl
  · rw [hC]
    rfl
  · rw [hC]
    rfl

/-- C10. In a scale-out cycle (provisioning and readiness check passed) every status write is
issued by one attempt of the publication loop: the attempt starts in a world `w` of that
loop, its fetch in `w` returns the runtime `r`, and the attempt adds to the trace that fetch
followed by the write of `obj`. The written `obj` is that freshly fetched `r` with only
`Status.Conditions` replaced: the desired and current worker counts and both fuse counts of
the written status are those of `r`, so the write never raises the current worker count. -/
theorem SyncReplicas_scaleOut_frame (K : Constants) (e : AlluxioEngine σ)
    (s s1 s2 s3 : σ) (runtime : AlluxioRuntime) (ready : Bool)
    (hfetch : e.getRuntime s = (Except.ok runtime, s1))
    (hgt : runtime.Replicas > runtime.Status.CurrentWorkerNumberScheduled)
    (hsetup : e.SetupWorkers s1 = (none, s2))
    (hready : e.CheckWorkersReady s2 = (Except.ok ready, s3)) :
    ∀ obj res, Action.StatusUpdate obj res ∈ (SyncReplicas K e ⟨s, []⟩).2.trace →
      ∃ w ∈ attemptWorlds (scaleOutAttempt K e) K.DefaultBackoffSteps
          ⟨s3, [Action.getRuntime, Action.SetupWorkers, Action.CheckWorkersReady]⟩,
        ∃ r sb, e.getRuntime w.env = (Except.ok r, sb) ∧
          (scaleOutAttempt K e w).2.trace
            = w.trace ++ [Action.getRuntime, Action.StatusUpdate obj res] ∧
          obj = { r with Status := { r.Status with Conditions := obj.Status.Conditions } } ∧
          obj.Status.DesiredWorkerNumberScheduled = r.Status.DesiredWorkerNumberScheduled ∧
          obj.Status.CurrentWorkerNumberScheduled = r.Status.CurrentWorkerNumberScheduled ∧
          obj.Status.DesiredFuseNumberScheduled = r.Status.DesiredFuseNumberScheduled ∧
          obj.Status.CurrentFuseNumberScheduled = r.Status.CurrentFuseNumberScheduled := by
  intro obj res hmem
  obtain ⟨w, hw, r, sb, hf, hobj, htr⟩ :=
    SyncReplicas_scaleOut_write_attempt K e s s1 s2 s3 runtime ready hfetch hgt hsetup hready
      obj res hmem
  refine ⟨w, hw, r, sb, hf, htr, ?_⟩
  rw [hobj, scaleOutMutation_eq]
  exact ⟨rfl, rfl, rfl, rfl, rfl⟩

/-- C10 at the scripted scale-out with one conflict (current 2, desired 5): the loop makes
two attempts, which fetch version 1 and then version 2 of the runtime; the accepted write is
version 2, the one the second attempt fetched, and still carries current worker count 2 and
the fetched desired and fuse counts. -/
theorem SyncReplicas_scaleOut_frame_witness :
    (attemptWorlds (scaleOutAttempt sampleConstants scripted) 4
        ⟨(scripted.getRuntime conflictScaleOut).2,
          [Action.getRuntime, Action.SetupWorkers, Action.CheckWorkersReady]⟩).map
      (fun w => (scripted.getRuntime w.env).1)
      = [Except.ok (mkRuntime 1 5 2 false []),
          Except.ok (mkRuntime 2 5 2 false [workersReady])] ∧
    ∃ obj, Action.StatusUpdate obj none
        ∈ (SyncReplicas sampleConstants scripted ⟨conflictScaleOut, []⟩).2.trace ∧
      obj.ResourceVersion = 2 ∧
      obj.Status.CurrentWorkerNumberScheduled = 2 ∧
      obj.Status.DesiredWorkerNumberScheduled = 0 ∧
      ∃ w ∈ attemptWorlds (scaleOutAttempt sampleConstants scripted) 4
          ⟨(scripted.getRuntime conflictScaleOut).2,
            [Action.getRuntime, Action.SetupWorkers, Action.CheckWorkersReady]⟩,
        ∃ r sb, scripted.getRuntime w.env = (Except.ok r, sb) ∧
          (scaleOutAttempt sampleConstants scripted w).2.trace
            = w.trace ++ [Action.getRuntime, Action.StatusUpdate obj none] ∧
          obj = { r with Status := { r.Status with Conditions := obj.Status.Conditions } } ∧
          obj.Status.DesiredWorkerNumberScheduled = r.Status.DesiredWorkerNumberScheduled ∧
          obj.Status.CurrentWorkerNumberScheduled = r.Status.CurrentWorkerNumberScheduled ∧
          obj.Status.DesiredFuseNumberScheduled = r.Status.DesiredFuseNumberScheduled ∧
          obj.Status.CurrentFuseNumberScheduled = r.Status.CurrentFuseNumberScheduled :=
  have hmem : Action.StatusUpdate
      ⟨2, ⟨5, ⟨false⟩⟩, ⟨0, 2, 0, 0,
        [workersReady,
          ⟨"Workers scaled out", "Workers scaled out", "The workers are scale out.",
            ConditionStatus.ConditionTrue, 101⟩]⟩⟩ none
      ∈ (SyncReplicas sampleConstants scripted ⟨conflictScaleOut, []⟩).2.trace := by decide
  ⟨rfl, _, hmem, rfl, rfl, rfl,
    SyncReplicas_scaleOut_frame sampleConstants scripted conflictScaleOut
      (scripted.getRuntime conflictScaleOut).2 (scripted.getRuntime conflictScaleOut).2
      (scripted.getRuntime conflictScaleOut).2 (mkRuntime 1 5 2 false []) true
      rfl (by decide) rfl rfl _ _ hmem⟩

end Fluid
